import Mathlib

/-!
Verification development for the Fossil CUBE repository.

The repository contains several coexisting revisions of the same library:
* a windowing / GL-context wrapper (`fossil_cube_create`, per-platform
  `cube_create_platform` backends for Win32+WGL, macOS CGL and X11+GLX);
* a GL-loader revision (`fossil_cube_init(const fossil_cube_config*)`,
  `fc_load_symbol_default`, `fossil_cube_get_caps`);
* a software-rasterizer revision (`fossil_cube_init(width, height, present,
  userdata)`, `fossil_cube_set_clip`, `fossil_cube_fill_rect`, ...);
* an immediate-mode GUI (`fossil_cube_button`, `fossil_cube_slider`,
  `push_quad`, `glpipe_draw`, ...).

Each revision is embedded below in its own namespace.  C `float` values are
modelled as rationals (the properties proved here concern control flow and
order comparisons, not rounding), C `int` as `Int`, C unsigned arithmetic as
`Nat` with explicit reduction mod 2^32 where the source relies on wraparound.
Calls into the operating system or the OpenGL driver are modelled by explicit
oracle/environment records describing their outcomes; heap allocation failure
is an oracle boolean.
-/

namespace FossilCube

/-! ## GL-loader revision (first half of cube.c) -/

namespace GlLoader

/-- A GL symbol loader: maps a symbol name to a pointer (`none` models NULL).
Pointers themselves are abstracted as natural numbers. -/
def Loader : Type := String → Option Nat

/-- Outcome oracle for the OS-level calls made by the Linux/GLX branch of
`fc_load_symbol_default`: whether `dlopen("libGL.so.1")` succeeds, what
`dlsym(libGL, "glXGetProcAddressARB")` and `dlsym(libGL, "glXGetProcAddress")`
resolve to, and what `dlsym(RTLD_DEFAULT, name)` resolves to. -/
structure LoaderEnv where
  dlopenLibGL : Bool
  dlsymARB : Option Loader
  dlsymPlain : Option Loader
  dlsymDefault : Loader

/-- The lazy resolution of the static `s_glXGetProcAddress` cache: if already
resolved keep it, otherwise try `dlopen` + `dlsym` for the ARB entry point,
falling back to the non-ARB name. -/
def resolveGlxCache (st : Option Loader) (env : LoaderEnv) : Option Loader :=
  match st with
  | some f => some f
  | none =>
    if env.dlopenLibGL then
      match env.dlsymARB with
      | some f => some f
      | none => env.dlsymPlain
    else none

/-- The built-in (platform) part of `fc_load_symbol_default`, Linux/GLX branch:
consult `s_glXGetProcAddress` when available, then fall back to
`dlsym(RTLD_DEFAULT, name)`.  Returns the pointer and the updated cache. -/
def fcBuiltinLoad (st : Option Loader) (env : LoaderEnv) (name : String) :
    Option Nat × Option Loader :=
  let st2 := resolveGlxCache st env
  match st2 with
  | some f =>
    match f name with
    | some p => (some p, st2)
    | none => (env.dlsymDefault name, st2)
  | none => (env.dlsymDefault name, st2)

/-- `fc_load_symbol_default`: the user-supplied loader wins; the built-in
platform loader is consulted only when the user loader is absent or returns
NULL. -/
def fc_load_symbol_default (userLoader : Option Loader) (st : Option Loader)
    (env : LoaderEnv) (name : String) : Option Nat × Option Loader :=
  match userLoader with
  | some u =>
    match u name with
    | some p => (some p, st)
    | none => fcBuiltinLoad st env name
  | none => fcBuiltinLoad st env name

/-- `fossil_cube_caps`: capability snapshot queried at init. -/
structure fossil_cube_caps where
  major : Int
  minor : Int
  max_vertex_attribs : Int
  max_uniform_block_size : Int
  uniform_buffer_offset_alignment : Int
  max_combined_texture_units : Int
  max_texture_size : Int
  max_renderbuffer_size : Int
  max_color_attachments : Int
  has_vertex_array_obj : Bool
  has_instancing : Bool
  deriving DecidableEq

/-- `fossil_cube_config` for the GL-loader revision. -/
structure fossil_cube_config where
  custom_loader : Option Loader
  profile_hint : Int
  require_gl_version_major : Int
  require_gl_version_minor : Int

/-- `fossil_cube_result` for the GL-loader revision. -/
inductive fossil_cube_result where
  | ok
  | errNoContext
  | errLoadFunc
  | errVersion
  | errGlError
  | errBadArg
  deriving DecidableEq

/-- Outcome oracle for the GL driver during `fossil_cube_init`: whether all
required entry points load (`fc_load_required_symbols`), the parse of
`GL_VERSION` (`none` models an unparsable string), and the integer/boolean
results of the `glGetIntegerv` capability queries. -/
structure GlEnv where
  loadOK : Bool
  versionParse : Option (Int × Int)
  maxVertexAttribs : Int
  maxUniformBlockSize : Int
  uniformBufferOffsetAlignment : Int
  maxCombinedTextureUnits : Int
  maxTextureSize : Int
  maxRenderbufferSize : Int
  maxColorAttachments : Int
  hasInstancing : Bool

/-- `fc_query_caps`: fill the capability snapshot from driver queries.
`has_vertex_array_obj` is the compile-time `#ifdef GL_VERTEX_ARRAY_BINDING`
branch, constantly 1 on a modern header set. -/
def fc_query_caps (env : GlEnv) : fossil_cube_caps :=
  { major := match env.versionParse with | some vm => vm.1 | none => 0
    minor := match env.versionParse with | some vm => vm.2 | none => 0
    max_vertex_attribs := env.maxVertexAttribs
    max_uniform_block_size := env.maxUniformBlockSize
    uniform_buffer_offset_alignment := env.uniformBufferOffsetAlignment
    max_combined_texture_units := env.maxCombinedTextureUnits
    max_texture_size := env.maxTextureSize
    max_renderbuffer_size := env.maxRenderbufferSize
    max_color_attachments := env.maxColorAttachments
    has_vertex_array_obj := true
    has_instancing := env.hasInstancing }

/-- The internal static state `g` of the GL-loader revision (the sticky error
string is omitted: no claim concerns it). -/
structure fossil_cube_state where
  caps : fossil_cube_caps
  initialized : Bool
  user_loader : Option Loader

/-- The all-zero capability snapshot (`memset(&g, 0, sizeof(g))`). -/
def zeroCaps : fossil_cube_caps :=
  { major := 0, minor := 0, max_vertex_attribs := 0, max_uniform_block_size := 0
    uniform_buffer_offset_alignment := 0, max_combined_texture_units := 0
    max_texture_size := 0, max_renderbuffer_size := 0, max_color_attachments := 0
    has_vertex_array_obj := false, has_instancing := false }

/-- The zero-initialized static state (before any call). -/
def zeroState : fossil_cube_state :=
  { caps := zeroCaps, initialized := false, user_loader := none }

/-- `fossil_cube_init(const fossil_cube_config*)`: zero the state, record the
user loader, load the required GL symbols, query capabilities, then enforce
the optional minimum GL version. -/
def fossil_cube_init (cfg : Option fossil_cube_config) (env : GlEnv) :
    fossil_cube_result × fossil_cube_state :=
  let g : fossil_cube_state :=
    { zeroState with
      user_loader := match cfg with | some c => c.custom_loader | none => none }
  if ¬ env.loadOK then (.errLoadFunc, g)
  else
    let g := { g with caps := fc_query_caps env }
    let versionFail : Bool :=
      match cfg with
      | some c =>
        decide (c.require_gl_version_major > 0 ∧
          (g.caps.major < c.require_gl_version_major ∨
           (g.caps.major = c.require_gl_version_major ∧
            g.caps.minor < c.require_gl_version_minor)))
      | none => false
    if versionFail then (.errVersion, g)
    else (.ok, { g with initialized := true })

/-- `fossil_cube_shutdown`: `memset(&g, 0, sizeof(g))`. -/
def fossil_cube_shutdown (_ : fossil_cube_state) : fossil_cube_state := zeroState

/-- `fossil_cube_get_caps`: `g.initialized ? &g.caps : NULL`. -/
def fossil_cube_get_caps (g : fossil_cube_state) : Option fossil_cube_caps :=
  if g.initialized then some g.caps else none

end GlLoader

/-! ## Windowing revision (part_000: `fossil_cube_create` and the per-platform
backends) -/

namespace Windowing

/-- `fossil_cube_result_t` of the windowing revision (from
`fossil_cube_strerror`). -/
inductive fossil_cube_result_t where
  | ok
  | errGeneric
  | errPlatform
  | errNoDisplay
  | errCreateWindow
  | errCreateContext
  | errMakeCurrent
  | errGlLoader
  | errHeadlessOnly
  deriving DecidableEq

/-- `fossil_cube_config_t`: window creation parameters. -/
structure fossil_cube_config_t where
  width : Int
  height : Int
  title : Option String
  double_buffer : Bool
  vsync : Bool
  color_bits : Int
  depth_bits : Int
  stencil_bits : Int

/-- The observable fields of `fossil_cube_window_t` (native handles are left
out; they are opaque resources). -/
structure fossil_cube_window_t where
  width : Int
  height : Int
  double_buffer : Bool
  headless : Bool
  deriving DecidableEq

/-- Outcome oracle for the operating-system and GL calls made by
`cube_create_platform`, one constructor per platform branch.  Each boolean is
the success of the corresponding call, in program order. -/
inductive PlatformEnv where
  | win32 (createWindow setPixelFormat wglCreateContext wglMakeCurrent : Bool)
  | macos (choosePixelFormat createContext createPBuffer setPBuffer
           setCurrent : Bool)
  | x11 (openDisplay chooseVisual createWindow createContext
         makeCurrent : Bool)

/-- `cube_create_platform`: the three platform backends.  Every early-return
path stores the specific error before returning NULL; the success path stores
`FOSSIL_CUBE_OK` and returns the window.  Widths/heights default to 640x480
when the config values are not positive; the X11 branch forces
`double_buffer = 1` and the CGL branch forces `headless = 1`. -/
def cube_create_platform (cfg : fossil_cube_config_t) (env : PlatformEnv) :
    Option fossil_cube_window_t × fossil_cube_result_t :=
  match env with
  | .win32 createWindow setPixelFormat wglCreateContext wglMakeCurrent =>
    if ¬ createWindow then (none, .errCreateWindow)
    else if ¬ setPixelFormat then (none, .errCreateContext)
    else if ¬ wglCreateContext then (none, .errCreateContext)
    else if ¬ wglMakeCurrent then (none, .errMakeCurrent)
    else
      (some { width := if cfg.width > 0 then cfg.width else 640
              height := if cfg.height > 0 then cfg.height else 480
              double_buffer := cfg.double_buffer
              headless := false }, .ok)
  | .macos choosePixelFormat createContext createPBuffer setPBuffer setCurrent =>
    if ¬ choosePixelFormat then (none, .errCreateContext)
    else if ¬ createContext then (none, .errCreateContext)
    else if ¬ createPBuffer then (none, .errCreateContext)
    else if ¬ setPBuffer then (none, .errCreateContext)
    else if ¬ setCurrent then (none, .errMakeCurrent)
    else
      (some { width := if cfg.width > 0 then cfg.width else 640
              height := if cfg.height > 0 then cfg.height else 480
              double_buffer := cfg.double_buffer
              headless := true }, .ok)
  | .x11 openDisplay chooseVisual createWindow createContext makeCurrent =>
    if ¬ openDisplay then (none, .errNoDisplay)
    else if ¬ chooseVisual then (none, .errCreateContext)
    else if ¬ createWindow then (none, .errCreateWindow)
    else if ¬ createContext then (none, .errCreateContext)
    else if ¬ makeCurrent then (none, .errMakeCurrent)
    else
      (some { width := if cfg.width > 0 then cfg.width else 640
              height := if cfg.height > 0 then cfg.height else 480
              double_buffer := true
              headless := false }, .ok)

/-- `fossil_cube_init(void)` of the windowing revision: idempotently sets the
`g_inited` flag and always succeeds.  The state argument is the prior value of
`g_inited`. -/
def fossil_cube_init (g_inited : Bool) : fossil_cube_result_t × Bool :=
  if g_inited then (.ok, g_inited) else (.ok, true)

/-- `fossil_cube_create(cfg, out_err)` with `out_err` non-NULL: auto-init,
reject a NULL `cfg` with `FOSSIL_CUBE_ERR_GENERIC`, otherwise defer to the
platform backend.  Returns (window-or-NULL, stored `*out_err`, new
`g_inited`). -/
def fossil_cube_create (g_inited : Bool) (cfg : Option fossil_cube_config_t)
    (env : PlatformEnv) :
    Option fossil_cube_window_t × fossil_cube_result_t × Bool :=
  let g2 := if ¬ g_inited then (fossil_cube_init g_inited).2 else g_inited
  match cfg with
  | none => (none, .errGeneric, g2)
  | some c =>
    let we := cube_create_platform c env
    (we.1, we.2, g2)

end Windowing

/-! ## Software-rasterizer revision (part_002) -/

namespace SwRaster

/-- `fossil_cube_result` of the software-rasterizer revision (the declaring
header is not in the tree; the constructors are those used by part_002). -/
inductive fossil_cube_result where
  | ok
  | errBadArgs
  | errOOM
  | errNotInit
  deriving DecidableEq

/-- `fc_clip`: the clip rectangle. -/
structure fc_clip where
  x : Int
  y : Int
  w : Int
  h : Int
  enabled : Bool
  deriving DecidableEq

/-- `fc_ctx`: the single global rasterizer state `g_fc`.  The pixel buffer is
the flat RGBA8 byte array (`pitch * h` bytes); the present callback is
abstracted to its presence. -/
structure fc_ctx where
  w : Int
  h : Int
  pitch : Int
  pixels : List Nat
  present : Option Unit
  clip : fc_clip
  initialized : Bool
  deriving DecidableEq

/-- The zero-initialized global `g_fc = {0}`. -/
def g_fc_zero : fc_ctx :=
  { w := 0, h := 0, pitch := 0, pixels := [], present := none
    clip := { x := 0, y := 0, w := 0, h := 0, enabled := false }
    initialized := false }

/-- `u8_clampi`: clamp an int to 0..255. -/
def u8_clampi (v : Int) : Nat :=
  if v < 0 then 0 else if v > 255 then 255 else v.toNat

/-- A C `(unsigned)` cast of an `int` (32-bit two's complement). -/
def u32 (v : Int) : Nat := (v % 4294967296).toNat

/-- `blend_rgba_over`: straight-alpha source-over blend of one RGBA pixel, in
0..255 integer space (`out = s + d*(1 - sa)` with rounding `+127)/255`).
Takes the four destination bytes, returns the four blended bytes. -/
def blend_rgba_over (d0 d1 d2 d3 sr sg sb sa : Nat) : Nat × Nat × Nat × Nat :=
  let da : Int := d3
  let inv_sa : Int := 255 - (sa : Int)
  let r : Int := (sr : Int) + ((d0 : Int) * inv_sa + 127) / 255
  let g : Int := (sg : Int) + ((d1 : Int) * inv_sa + 127) / 255
  let b : Int := (sb : Int) + ((d2 : Int) * inv_sa + 127) / 255
  let a : Int := (sa : Int) + (da * inv_sa + 127) / 255
  (u8_clampi r, u8_clampi g, u8_clampi b, u8_clampi a)

/-- `in_clip`: a point passes when clipping is disabled, or lies in the
half-open clip rectangle. -/
def in_clip (s : fc_ctx) (x y : Int) : Bool :=
  if ¬ s.clip.enabled then true
  else
    decide (x ≥ s.clip.x) && decide (y ≥ s.clip.y) &&
    decide (x < s.clip.x + s.clip.w) && decide (y < s.clip.y + s.clip.h)

/-- Write four bytes at byte offset `i` of the pixel buffer. -/
def listSet4 (l : List Nat) (i : Nat) (b0 b1 b2 b3 : Nat) : List Nat :=
  (((l.set i b0).set (i + 1) b1).set (i + 2) b2).set (i + 3) b3

/-- `put_px_nocheck`: write or blend one pixel at `(x, y)` (caller has already
checked bounds and clip, so the byte offset `y*pitch + x*4` is non-negative). -/
def put_px_nocheck (s : fc_ctx) (x y : Int) (r g b a : Nat) : fc_ctx :=
  let off : Nat := (y * s.pitch + x * 4).toNat
  if a = 255 then
    { s with pixels := listSet4 s.pixels off r g b 255 }
  else if a ≠ 0 then
    let d0 := s.pixels.getD off 0
    let d1 := s.pixels.getD (off + 1) 0
    let d2 := s.pixels.getD (off + 2) 0
    let d3 := s.pixels.getD (off + 3) 0
    let q := blend_rgba_over d0 d1 d2 d3 r g b a
    { s with pixels := listSet4 s.pixels off q.1 q.2.1 q.2.2.1 q.2.2.2 }
  else s

/-- `fossil_cube_shutdown` of the software rasterizer: free and zero the
state; a no-op when not initialized. -/
def fossil_cube_shutdown (s : fc_ctx) : fc_ctx :=
  if ¬ s.initialized then s else g_fc_zero

/-- `fossil_cube_init(width, height, present, userdata)`: validate arguments,
re-init if already initialized, allocate and zero the framebuffer
(`mallocOK` is the allocation oracle; on failure the whole state is zeroed
and `ERR_OOM` returned). -/
def fossil_cube_init (s : fc_ctx) (width height : Int) (present : Option Unit)
    (mallocOK : Bool) : fossil_cube_result × fc_ctx :=
  if width ≤ 0 ∨ height ≤ 0 ∨ present = none then (.errBadArgs, s)
  else
    let s := if s.initialized then fossil_cube_shutdown s else s
    let pitch := width * 4
    if ¬ mallocOK then (.errOOM, g_fc_zero)
    else
      (.ok,
       { w := width, h := height, pitch := pitch
         pixels := List.replicate (pitch * height).toNat 0
         present := present
         clip := { s.clip with enabled := false }
         initialized := true })

/-- `fossil_cube_resize`: reallocate and zero the framebuffer at the new size,
disabling clipping.  An allocation failure returns `ERR_OOM` with the old
buffer kept. -/
def fossil_cube_resize (s : fc_ctx) (new_width new_height : Int)
    (mallocOK : Bool) : fossil_cube_result × fc_ctx :=
  if ¬ s.initialized then (.errNotInit, s)
  else if new_width ≤ 0 ∨ new_height ≤ 0 then (.errBadArgs, s)
  else if ¬ mallocOK then (.errOOM, s)
  else
    let new_pitch := new_width * 4
    (.ok,
     { s with
       pixels := List.replicate (new_pitch * new_height).toNat 0
       w := new_width, h := new_height, pitch := new_pitch
       clip := { s.clip with enabled := false } })

/-- `fossil_cube_clear`: fill the whole buffer with the 32-bit RGBA pattern
(`w*h` little-endian stores of `r | g<<8 | b<<16 | a<<24`, i.e. byte groups
`[r, g, b, a]`). -/
def fossil_cube_clear (s : fc_ctx) (r g b a : Nat) : fc_ctx :=
  if ¬ s.initialized then s
  else { s with pixels := (List.replicate (s.w * s.h).toNat [r, g, b, a]).flatten }

/-- `fossil_cube_begin_frame`: just `fossil_cube_clear`. -/
def fossil_cube_begin_frame (s : fc_ctx) (r g b a : Nat) : fc_ctx :=
  fossil_cube_clear s r g b a

/-- `fossil_cube_end_frame`: calls the present callback; no state change. -/
def fossil_cube_end_frame (s : fc_ctx) : fc_ctx := s

/-- `fossil_cube_set_clip`: non-positive sizes disable clipping; otherwise the
rectangle is clamped to the framebuffer and clipping is enabled exactly when
the clamped rectangle is non-empty. -/
def fossil_cube_set_clip (s : fc_ctx) (x y w h : Int) : fc_ctx :=
  if ¬ s.initialized then s
  else if w ≤ 0 ∨ h ≤ 0 then
    { s with clip := { s.clip with enabled := false } }
  else
    let x0 := if x < 0 then 0 else x
    let y0 := if y < 0 then 0 else y
    let x1 := if x + w > s.w then s.w else x + w
    let y1 := if y + h > s.h then s.h else y + h
    let cw := if x1 > x0 then x1 - x0 else 0
    let ch := if y1 > y0 then y1 - y0 else 0
    { s with clip :=
      { x := x0, y := y0, w := cw, h := ch
        enabled := decide (cw > 0) && decide (ch > 0) } }

/-- `fossil_cube_put_pixel`: bounds check via the `(unsigned)` casts, then
clip check, then raw write. -/
def fossil_cube_put_pixel (s : fc_ctx) (x y : Int) (r g b a : Nat) : fc_ctx :=
  if ¬ s.initialized then s
  else if u32 x ≥ u32 s.w ∨ u32 y ≥ u32 s.h then s
  else if ¬ in_clip s x y then s
  else put_px_nocheck s x y r g b a

/-- The integer interval `[lo, hi)` as a list (empty when `hi ≤ lo`). -/
def intRange (lo hi : Int) : List Int :=
  (List.range (hi - lo).toNat).map (fun i => lo + (i : Int))

/-- `fossil_cube_fill_rect`: clamp the rectangle to the framebuffer and write
every pixel that passes the clip test. -/
def fossil_cube_fill_rect (s : fc_ctx) (x y w h : Int) (r g b a : Nat) :
    fc_ctx :=
  if ¬ s.initialized then s
  else if w ≤ 0 ∨ h ≤ 0 then s
  else
    let x0 := if x < 0 then 0 else x
    let y0 := if y < 0 then 0 else y
    let x1 := if x + w > s.w then s.w else x + w
    let y1 := if y + h > s.h then s.h else y + h
    (intRange y0 y1).foldl
      (fun s1 yy =>
        (intRange x0 x1).foldl
          (fun s2 xx =>
            if ¬ in_clip s2 xx yy then s2
            else put_px_nocheck s2 xx yy r g b a)
          s1)
      s

/-- One Bresenham iteration state step of `fossil_cube_draw_line`, run on
fuel.  The C loop plots, stops at the endpoint, advances by the error terms,
and breaks when both coordinates left the `(unsigned)` framebuffer range.
`dx - dy + 1` fuel is enough: Bresenham with `err = dx + dy` reaches the
endpoint after at most `max(dx, -dy) ≤ dx - dy` advances. -/
def drawLineLoop (fuel : Nat) (s : fc_ctx) (x0 y0 x1 y1 dx dy sx sy err : Int)
    (r g b a : Nat) : fc_ctx :=
  match fuel with
  | 0 => s
  | fuel + 1 =>
    let s := fossil_cube_put_pixel s x0 y0 r g b a
    if x0 = x1 ∧ y0 = y1 then s
    else
      let e2 := err * 2
      let err2 := (if e2 ≥ dy then err + dy else err)
      let x0n := (if e2 ≥ dy then x0 + sx else x0)
      let err3 := (if e2 ≤ dx then err2 + dx else err2)
      let y0n := (if e2 ≤ dx then y0 + sy else y0)
      if u32 x0n ≥ u32 s.w ∧ u32 y0n ≥ u32 s.h then s
      else drawLineLoop fuel s x0n y0n x1 y1 dx dy sx sy err3 r g b a

/-- `fossil_cube_draw_line`: Bresenham line through `fossil_cube_put_pixel`. -/
def fossil_cube_draw_line (s : fc_ctx) (x0 y0 x1 y1 : Int) (r g b a : Nat) :
    fc_ctx :=
  if ¬ s.initialized then s
  else
    let dx := if x1 > x0 then x1 - x0 else x0 - x1
    let sx : Int := if x0 < x1 then 1 else -1
    let dy := if y1 > y0 then y0 - y1 else y1 - y0
    let sy : Int := if y0 < y1 then 1 else -1
    let err := dx + dy
    drawLineLoop (dx - dy + 1).toNat s x0 y0 x1 y1 dx dy sx sy err r g b a

/-- `fossil_cube_blit_rgba`: copy/blend a source RGBA byte block into the
framebuffer, clamped to the destination and filtered by the clip test. -/
def fossil_cube_blit_rgba (s : fc_ctx) (dst_x dst_y : Int) (src : List Nat)
    (src_w src_h src_pitch : Int) : fc_ctx :=
  if ¬ s.initialized ∨ src_w ≤ 0 ∨ src_h ≤ 0 then s
  else
    let x0 := if dst_x < 0 then 0 else dst_x
    let y0 := if dst_y < 0 then 0 else dst_y
    let x1 := if dst_x + src_w > s.w then s.w else dst_x + src_w
    let y1 := if dst_y + src_h > s.h then s.h else dst_y + src_h
    if x0 ≥ x1 ∨ y0 ≥ y1 then s
    else
      (intRange y0 y1).foldl
        (fun s1 y =>
          (intRange x0 x1).foldl
            (fun s2 x =>
              if ¬ in_clip s2 x y then s2
              else
                let soff : Nat := ((y - dst_y) * src_pitch + (x - dst_x) * 4).toNat
                let sr := src.getD soff 0
                let sg := src.getD (soff + 1) 0
                let sb := src.getD (soff + 2) 0
                let sa := src.getD (soff + 3) 0
                if sa = 255 then
                  { s2 with pixels :=
                    listSet4 s2.pixels (y * s2.pitch + x * 4).toNat sr sg sb 255 }
                else if sa ≠ 0 then
                  let off : Nat := (y * s2.pitch + x * 4).toNat
                  let d0 := s2.pixels.getD off 0
                  let d1 := s2.pixels.getD (off + 1) 0
                  let d2 := s2.pixels.getD (off + 2) 0
                  let d3 := s2.pixels.getD (off + 3) 0
                  let q := blend_rgba_over d0 d1 d2 d3 sr sg sb sa
                  { s2 with pixels :=
                    listSet4 s2.pixels off q.1 q.2.1 q.2.2.1 q.2.2.2 }
                else s2)
            s1)
        s

/-- One public operation of the software-rasterizer core, with its oracle
inputs (allocation success) bundled as arguments. -/
inductive SwOp where
  | init (width height : Int) (present : Option Unit) (mallocOK : Bool)
  | shutdown
  | resize (new_width new_height : Int) (mallocOK : Bool)
  | beginFrame (r g b a : Nat)
  | endFrame
  | clear (r g b a : Nat)
  | setClip (x y w h : Int)
  | putPixel (x y : Int) (r g b a : Nat)
  | fillRect (x y w h : Int) (r g b a : Nat)
  | drawLine (x0 y0 x1 y1 : Int) (r g b a : Nat)
  | blitRgba (dst_x dst_y : Int) (src : List Nat) (src_w src_h src_pitch : Int)

/-- Execute one public operation on the global state, returning the new state
and the result code when the operation has one. -/
def swStep (op : SwOp) (s : fc_ctx) : fc_ctx × Option fossil_cube_result :=
  match op with
  | .init w h p m =>
    let rs := fossil_cube_init s w h p m
    (rs.2, some rs.1)
  | .shutdown => (fossil_cube_shutdown s, none)
  | .resize w h m =>
    let rs := fossil_cube_resize s w h m
    (rs.2, some rs.1)
  | .beginFrame r g b a => (fossil_cube_begin_frame s r g b a, none)
  | .endFrame => (fossil_cube_end_frame s, none)
  | .clear r g b a => (fossil_cube_clear s r g b a, none)
  | .setClip x y w h => (fossil_cube_set_clip s x y w h, none)
  | .putPixel x y r g b a => (fossil_cube_put_pixel s x y r g b a, none)
  | .fillRect x y w h r g b a => (fossil_cube_fill_rect s x y w h r g b a, none)
  | .drawLine x0 y0 x1 y1 r g b a =>
    (fossil_cube_draw_line s x0 y0 x1 y1 r g b a, none)
  | .blitRgba dx dy src sw sh sp =>
    (fossil_cube_blit_rgba s dx dy src sw sh sp, none)

/-- Run a sequence of public operations from a starting state. -/
def swRun (ops : List SwOp) (s : fc_ctx) : fc_ctx :=
  ops.foldl (fun s1 op => (swStep op s1).1) s

/-- The clip-rectangle well-formedness invariant: whenever clipping is
enabled, the clip rectangle is non-empty and lies inside the framebuffer. -/
def ClipInv (s : fc_ctx) : Prop :=
  s.clip.enabled = true →
    0 ≤ s.clip.x ∧ 0 ≤ s.clip.y ∧ 0 < s.clip.w ∧ 0 < s.clip.h ∧
    s.clip.x + s.clip.w ≤ s.w ∧ s.clip.y + s.clip.h ≤ s.h

end SwRaster

/-! ## Immediate-mode GUI (second half of cube.c) -/

namespace Gui

/-- `fossil_cube_color` (floats as rationals). -/
structure fossil_cube_color where
  r : ℚ
  g : ℚ
  b : ℚ
  a : ℚ
  deriving DecidableEq

/-- `fossil_cube_rgba`. -/
def fossil_cube_rgba (r g b a : ℚ) : fossil_cube_color := ⟨r, g, b, a⟩

/-- `fossil_cube_rect`. -/
structure fossil_cube_rect where
  x : ℚ
  y : ℚ
  w : ℚ
  h : ℚ
  deriving DecidableEq

/-- `fossil_cube_rect_xywh`. -/
def fossil_cube_rect_xywh (x y w h : ℚ) : fossil_cube_rect := ⟨x, y, w, h⟩

/-- The fields of `fossil_cube_input` read by cube.c (mouse position, the
three mouse-button down/clicked flags, framebuffer size, dpi scale). -/
structure fossil_cube_input where
  mousePosX : ℚ
  mousePosY : ℚ
  mouseDown0 : Bool
  mouseDown1 : Bool
  mouseDown2 : Bool
  mouseClicked0 : Bool
  mouseClicked1 : Bool
  mouseClicked2 : Bool
  fb_w : Int
  fb_h : Int
  dpi_scale : ℚ
  deriving DecidableEq

/-- `fossil_cube_style`. -/
structure fossil_cube_style where
  clear_color : fossil_cube_color
  panel_bg : fossil_cube_color
  panel_border : fossil_cube_color
  text : fossil_cube_color
  button : fossil_cube_color
  button_hot : fossil_cube_color
  button_active : fossil_cube_color
  slider_bg : fossil_cube_color
  slider_knob : fossil_cube_color
  padding : ℚ
  item_spacing : ℚ
  roundness : ℚ
  font_px : ℚ
  deriving DecidableEq

/-- `clampf`. -/
def clampf (x a b : ℚ) : ℚ := if x < a then a else if x > b then b else x

/-- A batched vertex (`Vtx`): position, uv, packed ABGR color. -/
structure Vtx where
  x : ℚ
  y : ℚ
  u : ℚ
  v : ℚ
  abgr : Nat
  deriving DecidableEq

/-- One color channel of `pack_abgr`: `(unsigned int)(clampf(c,0,1)*255.0f + 0.5f)`
(truncation of a non-negative value is `Int.floor`). -/
def packByte (q : ℚ) : Nat := (Int.floor (clampf q 0 1 * 255 + 1 / 2)).toNat

/-- `pack_abgr`: `(a<<24) | (b<<16) | (g<<8) | r`; since every channel is at
most 255, the bitwise-or of the shifted bytes equals their sum. -/
def pack_abgr (c : fossil_cube_color) : Nat :=
  packByte c.a * 2 ^ 24 + packByte c.b * 2 ^ 16 + packByte c.g * 2 ^ 8 + packByte c.r

/-- The capacity-doubling loop `while (nc < needed) nc *= 2` of `ensure_vtx`.
The `nc = 0` guard is unreachable in the program (initial `nc` is 4096 or
twice a positive capacity) and exists only to justify termination. -/
def growLoop (nc needed : Nat) : Nat :=
  if nc = 0 then 0
  else if nc < needed then growLoop (nc * 2) needed
  else nc
termination_by needed - nc
decreasing_by omega

/-- The panel/window layout state inside `Ctx`. -/
structure Panel where
  active : Bool
  x : ℚ
  y : ℚ
  w : ℚ
  h : ℚ
  cursor_x : ℚ
  cursor_y : ℚ
  line_height : ℚ
  id_seed : Nat
  title : Option String
  deriving DecidableEq

/-- The GUI context `Ctx` (GL handle fields are omitted; the dynamic vertex
and index arrays are modelled by their live prefixes, so the C counts are
`vtx.length` and `idx.length`). -/
structure Ctx where
  vtx : List Vtx
  vtx_cap : Nat
  idx : List Nat
  idx_cap : Nat
  fb_w : Int
  fb_h : Int
  dpi : ℚ
  input : fossil_cube_input
  dt : ℚ
  style : fossil_cube_style
  clear_background : Bool
  panel : Panel
  hot_id : Nat
  active_id : Nat
  mouseDownPrev0 : Bool
  mouseDownPrev1 : Bool
  mouseDownPrev2 : Bool
  glyph_w : ℚ
  glyph_h : ℚ
  deriving DecidableEq

/-- `ensure_vtx`: grow each capacity (doubling, starting from 4096 / 8192)
until it holds `count + add` entries. -/
def ensure_vtx (c : Ctx) (add_vtx add_idx : Nat) : Ctx :=
  let c :=
    if c.vtx.length + add_vtx > c.vtx_cap then
      let ncv := growLoop (if c.vtx_cap = 0 then 4096 else c.vtx_cap * 2)
        (c.vtx.length + add_vtx)
      { c with vtx_cap := ncv }
    else c
  if c.idx.length + add_idx > c.idx_cap then
    let nci := growLoop (if c.idx_cap = 0 then 8192 else c.idx_cap * 2)
      (c.idx.length + add_idx)
    { c with idx_cap := nci }
  else c

/-- `push_quad`: append the quad's 4 vertices and the 6 indices of its two
triangles `(base, base+1, base+2)` and `(base, base+2, base+3)`. -/
def push_quad (c : Ctx) (x0 y0 x1 y1 u0 v0 u1 v1 : ℚ)
    (col : fossil_cube_color) : Ctx :=
  let c := ensure_vtx c 4 6
  let base := c.vtx.length
  let pc := pack_abgr col
  { c with
    vtx := c.vtx ++
      [⟨x0, y0, u0, v0, pc⟩, ⟨x1, y0, u1, v0, pc⟩,
       ⟨x1, y1, u1, v1, pc⟩, ⟨x0, y1, u0, v1, pc⟩]
    idx := c.idx ++ [base, base + 1, base + 2, base, base + 2, base + 3] }

/-- The bytes of a label string (FNV hashing walks `char`s; ASCII labels map
one-to-one to code points). -/
def strBytes (s : String) : List Nat := s.toList.map Char.toNat

/-- `hash_str`: FNV-1a over the label bytes in 32-bit unsigned arithmetic,
seeded, never returning 0. -/
def hash_str (s : List Nat) (seed : Nat) : Nat :=
  let h0 := if seed ≠ 0 then seed else 2166136261
  let h := s.foldl (fun h byte => ((h ^^^ byte) * 16777619) % 4294967296) h0
  if h = 0 then 1 else h

/-- `next_widget_id`: hash the label with the incremented per-frame seed. -/
def next_widget_id (c : Ctx) (label : String) : Nat × Ctx :=
  (hash_str (strBytes label) (c.panel.id_seed + 1),
   { c with panel := { c.panel with id_seed := c.panel.id_seed + 1 } })

/-- `mouse_in_rect`: the hit test, inclusive on all four edges. -/
def mouse_in_rect (input : fossil_cube_input) (r : fossil_cube_rect) : Bool :=
  decide (input.mousePosX ≥ r.x) && decide (input.mousePosX ≤ r.x + r.w) &&
  decide (input.mousePosY ≥ r.y) && decide (input.mousePosY ≤ r.y + r.h)

/-- `advance_cursor`. -/
def advance_cursor (c : Ctx) (h : ℚ) : Ctx :=
  { c with panel :=
    { c.panel with
      cursor_y := c.panel.cursor_y + h
      cursor_x := c.panel.x + c.style.padding } }

/-- `fossil_cube_text_height`. -/
def fossil_cube_text_height (c : Ctx) : ℚ := c.glyph_h

/-- `fossil_cube_text_width`: 24 units for a tab, 4 for a space, 6 otherwise,
scaled by `font_px / 8`. -/
def fossil_cube_text_width (c : Ctx) (text : Option String) : ℚ :=
  match text with
  | none => 0
  | some t =>
    let w : ℚ := t.toList.foldl
      (fun w ch =>
        if ch = '\t' then w + 4 * 6 else if ch = ' ' then w + 4 else w + 6) 0
    w * (c.style.font_px / 8)

/-- `g_font6x8`: the 6x8 bitmap font, 95 initialized glyph rows for ASCII
32..126 (the C array is declared with 96 rows; the last is implicitly zero
and never indexed). -/
def g_font6x8 : List (List Nat) := [
  [0, 0, 0, 0, 0, 0, 0, 0],
  [48, 48, 48, 48, 48, 0, 48, 0],
  [108, 108, 72, 0, 0, 0, 0, 0],
  [72, 72, 252, 72, 252, 72, 72, 0],
  [48, 124, 208, 120, 28, 216, 112, 0],
  [196, 204, 24, 48, 96, 198, 134, 0],
  [48, 72, 48, 114, 140, 140, 118, 0],
  [48, 48, 96, 0, 0, 0, 0, 0],
  [24, 48, 96, 96, 96, 48, 24, 0],
  [96, 48, 24, 24, 24, 48, 96, 0],
  [0, 72, 48, 252, 48, 72, 0, 0],
  [0, 48, 48, 252, 48, 48, 0, 0],
  [0, 0, 0, 0, 48, 48, 96, 0],
  [0, 0, 0, 252, 0, 0, 0, 0],
  [0, 0, 0, 0, 48, 48, 0, 0],
  [4, 12, 24, 48, 96, 192, 128, 0],
  [120, 204, 220, 244, 236, 204, 120, 0],
  [48, 112, 48, 48, 48, 48, 252, 0],
  [120, 204, 12, 56, 96, 204, 252, 0],
  [120, 204, 12, 56, 12, 204, 120, 0],
  [28, 60, 108, 204, 254, 12, 30, 0],
  [252, 192, 248, 12, 12, 204, 120, 0],
  [56, 96, 192, 248, 204, 204, 120, 0],
  [252, 204, 12, 24, 48, 48, 48, 0],
  [120, 204, 204, 120, 204, 204, 120, 0],
  [120, 204, 204, 124, 12, 24, 112, 0],
  [0, 48, 48, 0, 0, 48, 48, 0],
  [0, 48, 48, 0, 48, 48, 96, 0],
  [12, 24, 48, 96, 48, 24, 12, 0],
  [0, 0, 252, 0, 252, 0, 0, 0],
  [96, 48, 24, 12, 24, 48, 96, 0],
  [120, 204, 12, 56, 48, 0, 48, 0],
  [124, 198, 222, 214, 222, 192, 124, 0],
  [48, 120, 204, 204, 252, 204, 204, 0],
  [248, 204, 204, 248, 204, 204, 248, 0],
  [120, 204, 192, 192, 192, 204, 120, 0],
  [248, 204, 204, 204, 204, 204, 248, 0],
  [252, 192, 192, 248, 192, 192, 252, 0],
  [252, 192, 192, 248, 192, 192, 192, 0],
  [120, 204, 192, 220, 204, 204, 124, 0],
  [204, 204, 204, 252, 204, 204, 204, 0],
  [124, 48, 48, 48, 48, 48, 124, 0],
  [28, 12, 12, 12, 204, 204, 120, 0],
  [204, 216, 240, 224, 240, 216, 204, 0],
  [192, 192, 192, 192, 192, 192, 252, 0],
  [132, 204, 252, 212, 204, 204, 204, 0],
  [204, 236, 252, 220, 204, 204, 204, 0],
  [120, 204, 204, 204, 204, 204, 120, 0],
  [248, 204, 204, 248, 192, 192, 192, 0],
  [120, 204, 204, 204, 220, 216, 124, 0],
  [248, 204, 204, 248, 216, 204, 204, 0],
  [120, 204, 224, 120, 28, 204, 120, 0],
  [252, 48, 48, 48, 48, 48, 48, 0],
  [204, 204, 204, 204, 204, 204, 120, 0],
  [204, 204, 204, 204, 120, 48, 48, 0],
  [204, 204, 204, 212, 252, 204, 132, 0],
  [204, 204, 120, 48, 120, 204, 204, 0],
  [204, 204, 120, 48, 48, 48, 48, 0],
  [252, 12, 24, 48, 96, 192, 252, 0],
  [124, 96, 96, 96, 96, 96, 124, 0],
  [128, 192, 96, 48, 24, 12, 4, 0],
  [124, 12, 12, 12, 12, 12, 124, 0],
  [48, 120, 204, 0, 0, 0, 0, 0],
  [0, 0, 0, 0, 0, 0, 252, 0],
  [96, 48, 24, 0, 0, 0, 0, 0],
  [0, 0, 120, 12, 124, 204, 124, 0],
  [192, 192, 248, 204, 204, 204, 248, 0],
  [0, 0, 120, 204, 192, 204, 120, 0],
  [12, 12, 124, 204, 204, 204, 124, 0],
  [0, 0, 120, 204, 252, 192, 120, 0],
  [56, 96, 96, 248, 96, 96, 96, 0],
  [0, 0, 124, 204, 204, 124, 12, 120],
  [192, 192, 248, 204, 204, 204, 204, 0],
  [48, 0, 112, 48, 48, 48, 120, 0],
  [24, 0, 56, 24, 24, 24, 152, 112],
  [192, 192, 216, 240, 224, 240, 216, 0],
  [112, 48, 48, 48, 48, 48, 120, 0],
  [0, 0, 204, 252, 212, 204, 204, 0],
  [0, 0, 248, 204, 204, 204, 204, 0],
  [0, 0, 120, 204, 204, 204, 120, 0],
  [0, 0, 248, 204, 204, 248, 192, 192],
  [0, 0, 124, 204, 204, 124, 12, 12],
  [0, 0, 216, 240, 192, 192, 192, 0],
  [0, 0, 124, 192, 120, 12, 248, 0],
  [96, 96, 248, 96, 96, 96, 56, 0],
  [0, 0, 204, 204, 204, 204, 124, 0],
  [0, 0, 204, 204, 204, 120, 48, 0],
  [0, 0, 204, 204, 212, 252, 204, 0],
  [0, 0, 204, 120, 48, 120, 204, 0],
  [0, 0, 204, 204, 124, 12, 120, 0],
  [0, 0, 252, 24, 48, 96, 252, 0],
  [28, 48, 48, 96, 48, 48, 28, 0],
  [48, 48, 48, 48, 48, 48, 48, 0],
  [112, 24, 24, 12, 24, 24, 112, 0],
  [0, 104, 216, 144, 0, 0, 0, 0]]

/-- `draw_glyph`: out-of-range characters become `?`; one quad is pushed per
set bit of the 6x8 glyph, at scale `font_px / 8`. -/
def draw_glyph (c : Ctx) (x y : ℚ) (ch : Char) (col : fossil_cube_color) :
    Ctx :=
  let chN := if ch.toNat < 32 ∨ ch.toNat > 126 then 63 else ch.toNat
  let rows := g_font6x8.getD (chN - 32) (List.replicate 8 0)
  let sx := c.style.font_px / 8
  let sy := sx
  (List.range 8).foldl
    (fun c1 ry =>
      let bits := rows.getD ry 0
      (List.range 6).foldl
        (fun c2 rx =>
          if bits &&& (1 <<< rx) ≠ 0 then
            let px := x + (rx : ℚ) * sx
            let py := y + (ry : ℚ) * sy
            push_quad c2 px py (px + sx) (py + sy) 0 0 1 1 col
          else c2)
        c1)
    c

/-- `fossil_cube_draw_text`: newline moves down one glyph height, a space
advances the cursor, every other character is drawn as a glyph. -/
def fossil_cube_draw_text (c : Ctx) (x y : ℚ) (text : Option String)
    (col : fossil_cube_color) : Ctx :=
  match text with
  | none => c
  | some t =>
    let z := t.toList.foldl
      (fun (acc : Ctx × ℚ × ℚ) ch =>
        let (c1, y1, cursor) := acc
        if ch = '\n' then (c1, y1 + c1.glyph_h, 0)
        else if ch = ' ' then (c1, y1, cursor + 4 * (c1.style.font_px / 8))
        else
          (draw_glyph c1 (x + cursor) y1 ch col, y1,
           cursor + 6 * (c1.style.font_px / 8)))
      (c, y, 0)
    z.1

/-- `fossil_cube_draw_rect` (roundness unused by the implementation). -/
def fossil_cube_draw_rect (c : Ctx) (r : fossil_cube_rect)
    (col : fossil_cube_color) : Ctx :=
  push_quad c r.x r.y (r.x + r.w) (r.y + r.h) 0 0 1 1 col

/-- `fossil_cube_draw_rect_line`: four edge strips of thickness `t`. -/
def fossil_cube_draw_rect_line (c : Ctx) (r : fossil_cube_rect) (t : ℚ)
    (col : fossil_cube_color) : Ctx :=
  let c := fossil_cube_draw_rect c (fossil_cube_rect_xywh r.x r.y r.w t) col
  let c := fossil_cube_draw_rect c
    (fossil_cube_rect_xywh r.x (r.y + r.h - t) r.w t) col
  let c := fossil_cube_draw_rect c
    (fossil_cube_rect_xywh r.x (r.y + t) t (r.h - 2 * t)) col
  fossil_cube_draw_rect c
    (fossil_cube_rect_xywh (r.x + r.w - t) (r.y + t) t (r.h - 2 * t)) col

/-- `set_default_style`. -/
def set_default_style : fossil_cube_style :=
  { clear_color := fossil_cube_rgba 0.08 0.09 0.10 1
    panel_bg := fossil_cube_rgba 0.12 0.13 0.15 0.95
    panel_border := fossil_cube_rgba 0.05 0.05 0.05 1
    text := fossil_cube_rgba 0.92 0.93 0.95 1
    button := fossil_cube_rgba 0.25 0.27 0.30 1
    button_hot := fossil_cube_rgba 0.34 0.36 0.40 1
    button_active := fossil_cube_rgba 0.18 0.75 0.42 1
    slider_bg := fossil_cube_rgba 0.20 0.22 0.25 1
    slider_knob := fossil_cube_rgba 0.80 0.82 0.85 1
    padding := 8
    item_spacing := 6
    roundness := 3
    font_px := 14 }

/-- The all-false input of a freshly zeroed context. -/
def zeroInput : fossil_cube_input :=
  { mousePosX := 0, mousePosY := 0
    mouseDown0 := false, mouseDown1 := false, mouseDown2 := false
    mouseClicked0 := false, mouseClicked1 := false, mouseClicked2 := false
    fb_w := 0, fb_h := 0, dpi_scale := 0 }

/-- `fossil_cube_create_context`: zeroed context with defaulted framebuffer
size, default style and derived glyph metrics (GL pipeline setup omitted). -/
def fossil_cube_create_context (fb_w fb_h : Int) (dpi_scale : ℚ) : Ctx :=
  let style := set_default_style
  { vtx := [], vtx_cap := 0, idx := [], idx_cap := 0
    fb_w := if fb_w > 0 then fb_w else 640
    fb_h := if fb_h > 0 then fb_h else 480
    dpi := if dpi_scale > 0 then dpi_scale else 1
    input := zeroInput
    dt := 0
    style := style
    clear_background := false
    panel :=
      { active := false, x := 0, y := 0, w := 0, h := 0
        cursor_x := 0, cursor_y := 0
        line_height := style.font_px + style.item_spacing
        id_seed := 0, title := none }
    hot_id := 0, active_id := 0
    mouseDownPrev0 := false, mouseDownPrev1 := false, mouseDownPrev2 := false
    glyph_w := 6 * (style.font_px / 8)
    glyph_h := style.font_px }

/-- `fossil_cube_resize` of the GUI context. -/
def fossil_cube_resize_ctx (c : Ctx) (fb_w fb_h : Int) (dpi_scale : ℚ) : Ctx :=
  let c := if fb_w > 0 then { c with fb_w := fb_w } else c
  let c := if fb_h > 0 then { c with fb_h := fb_h } else c
  let c := if dpi_scale > 0 then { c with dpi := dpi_scale } else c
  { c with
    panel := { c.panel with line_height := c.style.font_px + c.style.item_spacing }
    glyph_w := 6 * (c.style.font_px / 8)
    glyph_h := c.style.font_px }

/-- `fossil_cube_new_frame`: latch the input, update framebuffer metrics,
reset the id seed and hot id, and synthesize mouse-clicked edge flags from
the previous frame's down state. -/
def fossil_cube_new_frame (c : Ctx) (input : Option fossil_cube_input)
    (dt_seconds : ℚ) : Ctx :=
  let c :=
    match input with
    | some i =>
      let c := { c with input := i }
      let c := if i.fb_w > 0 then { c with fb_w := i.fb_w } else c
      let c := if i.fb_h > 0 then { c with fb_h := i.fb_h } else c
      if i.dpi_scale > 0 then { c with dpi := i.dpi_scale } else c
    | none => c
  let c := { c with dt := dt_seconds
                    panel := { c.panel with id_seed := 0 }
                    hot_id := 0 }
  match input with
  | none => c
  | some _ =>
    let clk0 := if ¬ c.mouseDownPrev0 ∧ c.input.mouseDown0 then true
                else c.input.mouseClicked0
    let clk1 := if ¬ c.mouseDownPrev1 ∧ c.input.mouseDown1 then true
                else c.input.mouseClicked1
    let clk2 := if ¬ c.mouseDownPrev2 ∧ c.input.mouseDown2 then true
                else c.input.mouseClicked2
    { c with
      input := { c.input with mouseClicked0 := clk0, mouseClicked1 := clk1
                              mouseClicked2 := clk2 }
      mouseDownPrev0 := c.input.mouseDown0
      mouseDownPrev1 := c.input.mouseDown1
      mouseDownPrev2 := c.input.mouseDown2 }

/-- `glpipe_draw`: an empty batch returns immediately; otherwise the batch is
submitted to GL and both counts reset to 0 (the GL submission itself has no
effect on the context). -/
def glpipe_draw (c : Ctx) : Ctx :=
  if c.vtx.length = 0 ∨ c.idx.length = 0 then c
  else { c with vtx := [], idx := [] }

/-- `fossil_cube_render`. -/
def fossil_cube_render (c : Ctx) : Ctx := glpipe_draw c

/-- The panel-chrome drawing of `fossil_cube_begin_window`: body rectangle,
border, title bar and (when a title is given) the title text. -/
def begin_window_chrome (c : Ctx) (title : Option String) (x y w h : ℚ) :
    Ctx :=
  let c := fossil_cube_draw_rect c (fossil_cube_rect_xywh x y w h)
    c.style.panel_bg
  let c := fossil_cube_draw_rect_line c (fossil_cube_rect_xywh x y w h) 1
    c.style.panel_border
  let c := fossil_cube_draw_rect c
    (fossil_cube_rect_xywh x y w (c.glyph_h + c.style.padding * (1 / 2)))
    c.style.button
  match title with
  | some _ => fossil_cube_draw_text c (x + c.style.padding)
      (y + c.style.padding * (1 / 4)) title c.style.text
  | none => c

/-- The close-box drawing of `fossil_cube_begin_window`. -/
def begin_window_close (c : Ctx) (close_r : fossil_cube_rect)
    (cc : fossil_cube_color) : Ctx :=
  let c := fossil_cube_draw_rect c close_r cc
  fossil_cube_draw_text c (close_r.x + 4) close_r.y (some "x") c.style.text

/-- `fossil_cube_begin_window`: honoring `open_opt`, activate the panel, draw
its body, border, title bar and optional close box; returns whether the
window is open, the updated context and the updated `*open_opt`. -/
def fossil_cube_begin_window (c : Ctx) (title : Option String) (x y w h : ℚ)
    (open_opt : Option Bool) : Int × Ctx × Option Bool :=
  match open_opt with
  | some false => (0, { c with panel := { c.panel with active := false } }, some false)
  | _ =>
    let c := { c with panel :=
      { c.panel with
        active := true, x := x, y := y, w := w, h := h
        cursor_x := x + c.style.padding
        cursor_y := y + c.style.padding + c.glyph_h + c.style.item_spacing
        title := title } }
    let c := begin_window_chrome c title x y w h
    match open_opt with
    | some b =>
      let close_r := fossil_cube_rect_xywh (x + w - c.glyph_h) (y + 2)
        (c.glyph_h - 4) (c.glyph_h - 4)
      let cc := if mouse_in_rect c.input close_r then c.style.button_hot
                else c.style.button
      let c := begin_window_close c close_r cc
      let b2 := if mouse_in_rect c.input close_r ∧ c.input.mouseClicked0 then
        false else b
      (1, c, some b2)
    | none => (1, c, none)

/-- `fossil_cube_end_window`. -/
def fossil_cube_end_window (c : Ctx) : Ctx :=
  { c with panel := { c.panel with active := false } }

/-- `fossil_cube_label`. -/
def fossil_cube_label (c : Ctx) (text : Option String) : Ctx :=
  if ¬ c.panel.active then c
  else
    let c := fossil_cube_draw_text c c.panel.cursor_x c.panel.cursor_y
      (some (text.getD "")) c.style.text
    advance_cursor c c.panel.line_height

/-- The drawing tail of `fossil_cube_button`: button rectangle, border,
label text, cursor advance. -/
def button_draw (c : Ctx) (r : fossil_cube_rect) (bc : fossil_cube_color)
    (label : Option String) (h : ℚ) : Ctx :=
  let c := fossil_cube_draw_rect c r bc
  let c := fossil_cube_draw_rect_line c r 1 c.style.panel_border
  let c := fossil_cube_draw_text c (r.x + c.style.padding)
    (r.y + (h - c.glyph_h) * (1 / 2)) (some (label.getD "")) c.style.text
  advance_cursor c (h + c.style.item_spacing)

/-- `fossil_cube_button`: layout the button at the cursor, run the
hot/active/pressed interaction, draw it (`button_draw`) and advance the
cursor.  Returns the pressed flag and the new context. -/
def fossil_cube_button (c : Ctx) (label : Option String) : Int × Ctx :=
  if ¬ c.panel.active then (0, c)
  else
    let id := (next_widget_id c (label.getD "button")).1
    let tw := fossil_cube_text_width c (some (label.getD ""))
    let w := tw + c.style.padding * 2
    let h := c.glyph_h + c.style.padding * (1 / 2)
    let r := fossil_cube_rect_xywh c.panel.cursor_x c.panel.cursor_y w h
    let hovered := mouse_in_rect c.input r
    let c := (next_widget_id c (label.getD "button")).2
    let c := if hovered then { c with hot_id := id } else c
    let c := if hovered ∧ c.input.mouseClicked0 then { c with active_id := id }
             else c
    let pc :=
      if c.active_id = id ∧ ¬ c.input.mouseDown0 then
        ((if hovered then (1 : Int) else 0), { c with active_id := 0 })
      else (0, c)
    let pressed := pc.1
    let c := pc.2
    let bc := if c.active_id = id then c.style.button_active
              else if hovered then c.style.button_hot
              else c.style.button
    (pressed, button_draw c r bc label h)

/-- The new slider value computed while dragging: clamped interpolation of
the mouse x over the bar, then optional rounding to the nearest `step`
followed by clamping to `[min_v, max_v]`. -/
def sliderComputeNv (rx rw bar_h mx min_v max_v step : ℚ) : ℚ :=
  let nt := clampf ((mx - rx) / (rw - bar_h)) 0 1
  let nv := min_v + nt * (max_v - min_v)
  if step > 0 then
    clampf (((Int.floor ((nv - min_v) / step + 1 / 2) : ℤ) : ℚ) * step + min_v)
      min_v max_v
  else nv

/-- The text shown next to a slider.  The C code formats
`"%s: %.3g"`; the exact numeral rendering is irrelevant to every property
proved here (they hold for any string), so the value is printed with the
rational's standard rendering. -/
def sliderValueText (label : Option String) (v : ℚ) : String :=
  label.getD "" ++ ": " ++ toString v

/-- The drawing tail of `fossil_cube_slider`: bar, knob, knob border, the
formatted label text, cursor advance. -/
def slider_draw (c : Ctx) (r knob : fossil_cube_rect) (label : Option String)
    (value2 bar_h h : ℚ) : Ctx :=
  let c := fossil_cube_draw_rect c r c.style.slider_bg
  let c := fossil_cube_draw_rect c knob c.style.slider_knob
  let c := fossil_cube_draw_rect_line c knob 1 c.style.panel_border
  let c := fossil_cube_draw_text c (r.x + r.w + c.style.padding)
    (r.y - (c.glyph_h - bar_h) * (1 / 2))
    (some (sliderValueText label value2)) c.style.text
  advance_cursor c h

/-- `fossil_cube_slider`: layout bar and knob, run the interaction (dragging
recomputes the value via `sliderComputeNv`), draw (`slider_draw`), advance.
Returns (changed, new value, new context). -/
def fossil_cube_slider (c : Ctx) (label : Option String) (value min_v max_v
    step : ℚ) : Int × ℚ × Ctx :=
  if ¬ c.panel.active then (0, value, c)
  else
    let id := (next_widget_id c (label.getD "slider")).1
    let bar_w := 160 * (c.style.font_px / 14)
    let bar_h := c.glyph_h * (1 / 2)
    let w := bar_w
    let h := c.glyph_h + c.style.item_spacing
    let r := fossil_cube_rect_xywh c.panel.cursor_x c.panel.cursor_y w bar_h
    let t := clampf ((value - min_v) / (max_v - min_v)) 0 1
    let kx := r.x + t * (r.w - bar_h)
    let knob := fossil_cube_rect_xywh kx
      (r.y - bar_h * (1 / 2) + bar_h * (1 / 2)) bar_h bar_h
    let hovered := mouse_in_rect c.input r || mouse_in_rect c.input knob
    let c := (next_widget_id c (label.getD "slider")).2
    let c := if hovered then { c with hot_id := id } else c
    let c := if hovered ∧ c.input.mouseClicked0 then { c with active_id := id }
             else c
    let cvc :=
      if c.active_id = id then
        if c.input.mouseDown0 then
          let nv := sliderComputeNv r.x r.w bar_h c.input.mousePosX min_v max_v
            step
          if nv ≠ value then ((1 : Int), nv, c) else (0, value, c)
        else (0, value, { c with active_id := 0 })
      else (0, value, c)
    let changed := cvc.1
    let value2 := cvc.2.1
    let c := cvc.2.2
    (changed, value2, slider_draw c r knob label value2 bar_h h)

/-- `fossil_cube_image`: one textured quad at the cursor. -/
def fossil_cube_image (c : Ctx) (w h : ℚ) : Ctx :=
  if ¬ c.panel.active then c
  else
    let x0 := c.panel.cursor_x
    let y0 := c.panel.cursor_y
    let c := push_quad c x0 y0 (x0 + w) (y0 + h) 0 0 1 1
      (fossil_cube_rgba 1 1 1 1)
    advance_cursor c (h + c.style.item_spacing)

/-- `fossil_cube_same_line`. -/
def fossil_cube_same_line (c : Ctx) : Ctx :=
  { c with panel :=
    { c.panel with
      cursor_x := c.panel.cursor_x + 8
      cursor_y := c.panel.cursor_y - c.panel.line_height } }

/-- `fossil_cube_spacing`. -/
def fossil_cube_spacing (c : Ctx) (px : ℚ) : Ctx :=
  { c with panel := { c.panel with cursor_y := c.panel.cursor_y + px } }

/-- One GUI operation (drawing, widget, frame management). -/
inductive GuiOp where
  | newFrame (input : Option fossil_cube_input) (dt : ℚ)
  | beginWindow (title : Option String) (x y w h : ℚ) (open_opt : Option Bool)
  | endWindow
  | labelOp (text : Option String)
  | button (label : Option String)
  | slider (label : Option String) (value min_v max_v step : ℚ)
  | image (w h : ℚ)
  | sameLine
  | spacing (px : ℚ)
  | drawRect (r : fossil_cube_rect) (col : fossil_cube_color) (round : ℚ)
  | drawRectLine (r : fossil_cube_rect) (t : ℚ) (col : fossil_cube_color)
      (round : ℚ)
  | drawText (x y : ℚ) (text : Option String) (col : fossil_cube_color)
  | render

/-- Execute one GUI operation on the context (return values discarded). -/
def guiStep (op : GuiOp) (c : Ctx) : Ctx :=
  match op with
  | .newFrame input dt => fossil_cube_new_frame c input dt
  | .beginWindow title x y w h o => (fossil_cube_begin_window c title x y w h o).2.1
  | .endWindow => fossil_cube_end_window c
  | .labelOp text => fossil_cube_label c text
  | .button label => (fossil_cube_button c label).2
  | .slider label v mi ma st => (fossil_cube_slider c label v mi ma st).2.2
  | .image w h => fossil_cube_image c w h
  | .sameLine => fossil_cube_same_line c
  | .spacing px => fossil_cube_spacing c px
  | .drawRect r col _ => fossil_cube_draw_rect c r col
  | .drawRectLine r t col _ => fossil_cube_draw_rect_line c r t col
  | .drawText x y text col => fossil_cube_draw_text c x y text col
  | .render => fossil_cube_render c

/-- Run a sequence of GUI operations. -/
def guiRun (ops : List GuiOp) (c : Ctx) : Ctx :=
  ops.foldl (fun c1 op => guiStep op c1) c

/-- Well-formedness of the draw batch: counts within capacities, the index
count a multiple of 6, every index below the vertex count, and four vertices
per six indices (so the batch is a sequence of quads). -/
def BatchInv (c : Ctx) : Prop :=
  c.vtx.length ≤ c.vtx_cap ∧ c.idx.length ≤ c.idx_cap ∧
  c.idx.length % 6 = 0 ∧ (∀ i ∈ c.idx, i < c.vtx.length) ∧
  3 * c.vtx.length = 2 * c.idx.length

/-- The widget id `fossil_cube_button` assigns to its label. -/
def buttonWidgetId (c : Ctx) (label : Option String) : Nat :=
  hash_str (strBytes (label.getD "button")) (c.panel.id_seed + 1)

/-- The rectangle `fossil_cube_button` lays out for its label. -/
def buttonRect (c : Ctx) (label : Option String) : fossil_cube_rect :=
  fossil_cube_rect_xywh c.panel.cursor_x c.panel.cursor_y
    (fossil_cube_text_width c (some (label.getD "")) + c.style.padding * 2)
    (c.glyph_h + c.style.padding * (1 / 2))

end Gui

/-! ## Comparing the coexisting `fossil_cube_init` revisions -/

namespace Revisions

/-- Success observation for the GL-loader `fossil_cube_init`: argument is the
config, environment is the driver oracle. -/
def isOkGl (cfg : GlLoader.fossil_cube_config) (env : GlLoader.GlEnv) : Bool :=
  decide ((GlLoader.fossil_cube_init (some cfg) env).1 = .ok)

/-- Success observation for the windowing `fossil_cube_init` (no arguments;
the environment is the prior `g_inited` flag). -/
def isOkWin (_ : Unit) (g_inited : Bool) : Bool :=
  decide ((Windowing.fossil_cube_init g_inited).1 = .ok)

/-- Success observation for the software-rasterizer `fossil_cube_init`:
arguments are (width, height, present callback), environment is the prior
global state together with the allocation oracle. -/
def isOkSw (args : Int × Int × Option Unit) (env : SwRaster.fc_ctx × Bool) :
    Bool :=
  decide ((SwRaster.fossil_cube_init env.1 args.1 args.2.1 args.2.2 env.2).1 = .ok)

/-- An (adequate) simulation between two environment-indexed operations: a
relation on arguments and a relation on environments, each total in both
directions, under which related calls agree on success.  Any behavioral
equivalence, refinement in both directions, or plain equality (after
transporting argument and environment types) induces such a simulation, so
proving that none exists separates the operations. -/
def OpSim {A E B F : Type} (f : A → E → Bool) (g : B → F → Bool) : Prop :=
  ∃ (Ri : A → B → Prop) (Re : E → F → Prop),
    (∀ a, ∃ b, Ri a b) ∧ (∀ b, ∃ a, Ri a b) ∧
    (∀ e, ∃ x, Re e x) ∧ (∀ x, ∃ e, Re e x) ∧
    (∀ a b e x, Ri a b → Re e x → f a e = g b x)

/-- A driver environment in which the GL-loader init succeeds for a given
config: all symbols load and the reported GL version is exactly the required
one. -/
def glSuccEnv (cfg : GlLoader.fossil_cube_config) : GlLoader.GlEnv :=
  { loadOK := true
    versionParse := some (cfg.require_gl_version_major, cfg.require_gl_version_minor)
    maxVertexAttribs := 0, maxUniformBlockSize := 0
    uniformBufferOffsetAlignment := 0, maxCombinedTextureUnits := 0
    maxTextureSize := 0, maxRenderbufferSize := 0, maxColorAttachments := 0
    hasInstancing := false }

/-- A driver environment in which the GL-loader init fails: the required
entry points do not load. -/
def glFailEnv : GlLoader.GlEnv :=
  { loadOK := false
    versionParse := none
    maxVertexAttribs := 0, maxUniformBlockSize := 0
    uniformBufferOffsetAlignment := 0, maxCombinedTextureUnits := 0
    maxTextureSize := 0, maxRenderbufferSize := 0, maxColorAttachments := 0
    hasInstancing := false }

end Revisions

/-! ## Concrete inputs used by the witness theorems -/

/-- A user loader that resolves every symbol to the pointer 7. -/
def wUserLoader : GlLoader.Loader := fun _ => some 7

/-- A loader environment whose built-in path resolves nothing. -/
def wLoaderEnv : GlLoader.LoaderEnv :=
  { dlopenLibGL := false, dlsymARB := none, dlsymPlain := none
    dlsymDefault := fun _ => none }

/-- A GUI context in which the button labelled "b" fires: the panel is
active, the button's id is already the active id, the left button is up and
the mouse is inside the button's rectangle. -/
def wButtonCtx : Gui.Ctx :=
  let c := Gui.fossil_cube_create_context 640 480 1
  { c with
    panel := { c.panel with active := true }
    style := { c.style with font_px := 8, padding := 8, item_spacing := 6 }
    glyph_h := 8
    glyph_w := 6
    input := { Gui.zeroInput with mousePosX := 1, mousePosY := 1 }
    active_id := Gui.hash_str (Gui.strBytes "b") 1 }

/-- A GUI context in which the slider labelled "s" is being dragged: active
panel, mouse held down over the bar, slider already active. -/
def wSliderCtx : Gui.Ctx :=
  let c := Gui.fossil_cube_create_context 640 480 1
  { c with
    panel := { c.panel with active := true }
    style := { c.style with font_px := 14, padding := 8, item_spacing := 6 }
    glyph_h := 8
    glyph_w := 6
    input := { Gui.zeroInput with mousePosX := 10, mousePosY := 1
                                  mouseDown0 := true, mouseClicked0 := true }
    active_id := 0 }

/-- An operation sequence that initializes the software rasterizer at 10x10
and enables a 5x5 clip rectangle at (1, 1). -/
def wSwOps : List SwRaster.SwOp :=
  [.init 10 10 (some ()) true, .setClip 1 1 5 5]

/-! ## General helper lemmas -/

theorem foldl_preserve {α β : Type} (P : β → Prop) (f : β → α → β)
    (hf : ∀ b a, P b → P (f b a)) :
    ∀ (l : List α) (b : β), P b → P (l.foldl f b) := by
  intro l
  induction l with
  | nil => intro b h; exact h
  | cons x xs ih => intro b h; exact ih _ (hf _ _ h)

theorem Gui.clampf_mem (x a b : ℚ) (hab : a ≤ b) :
    a ≤ Gui.clampf x a b ∧ Gui.clampf x a b ≤ b := by
  unfold Gui.clampf
  split_ifs with h1 h2
  · exact ⟨le_refl a, hab⟩
  · exact ⟨hab, le_refl b⟩
  · exact ⟨le_of_not_lt h1, le_of_not_lt h2⟩

theorem Gui.growLoop_ge (needed : Nat) :
    ∀ (k nc : Nat), needed - nc ≤ k → 1 ≤ nc → needed ≤ Gui.growLoop nc needed := by
  intro k
  induction k with
  | zero =>
    intro nc hk h1
    unfold Gui.growLoop
    split_ifs with h0 hlt
    · omega
    · omega
    · omega
  | succ k ih =>
    intro nc hk h1
    unfold Gui.growLoop
    split_ifs with h0 hlt
    · omega
    · exact ih (nc * 2) (by omega) (by omega)
    · omega

/-! ## Claim theorems -/

/-- Claim C1: in the windowing revision, `fossil_cube_create` with a non-NULL
`out_err` returns NULL if and only if it stores a result code other than
`FOSSIL_CUBE_OK`; a NULL `cfg` yields NULL with `FOSSIL_CUBE_ERR_GENERIC`,
and a successful creation returns a non-NULL window with `FOSSIL_CUBE_OK`
stored.  Proved over all three platform backends. -/
theorem c1_create_null_iff_error :
    ∀ (g : Bool) (cfg : Option Windowing.fossil_cube_config_t)
      (env : Windowing.PlatformEnv),
      ((Windowing.fossil_cube_create g cfg env).1 = none ↔
        (Windowing.fossil_cube_create g cfg env).2.1 ≠ .ok) ∧
      (cfg = none →
        (Windowing.fossil_cube_create g cfg env).1 = none ∧
        (Windowing.fossil_cube_create g cfg env).2.1 = .errGeneric) ∧
      (∀ w, (Windowing.fossil_cube_create g cfg env).1 = some w →
        (Windowing.fossil_cube_create g cfg env).2.1 = .ok) := by
  intro g cfg env
  cases cfg with
  | none => simp [Windowing.fossil_cube_create]
  | some c =>
    cases env <;>
      (simp only [Windowing.fossil_cube_create, Windowing.cube_create_platform];
        split_ifs <;> simp)

theorem c1_create_null_iff_error_witness :
    (Windowing.fossil_cube_create false none
      (.x11 true true true true true)).1 = none ∧
    (Windowing.fossil_cube_create false none
      (.x11 true true true true true)).2.1 = .errGeneric :=
  (c1_create_null_iff_error false none (.x11 true true true true true)).2.1 rfl

/-- Claim C2: the runtime GL symbol loader gives precedence to the
user-supplied loader: if a custom loader was configured and returns a
non-NULL pointer, that pointer is the result (and the platform cache is
untouched); the built-in platform loader is consulted exactly when the user
loader is absent or returns NULL. -/
theorem c2_loader_user_precedence :
    (∀ (u : GlLoader.Loader) (st : Option GlLoader.Loader)
        (env : GlLoader.LoaderEnv) (name : String) (p : Nat),
      u name = some p →
      GlLoader.fc_load_symbol_default (some u) st env name = (some p, st)) ∧
    (∀ (st : Option GlLoader.Loader) (env : GlLoader.LoaderEnv) (name : String),
      GlLoader.fc_load_symbol_default none st env name =
        GlLoader.fcBuiltinLoad st env name) ∧
    (∀ (u : GlLoader.Loader) (st : Option GlLoader.Loader)
        (env : GlLoader.LoaderEnv) (name : String),
      u name = none →
      GlLoader.fc_load_symbol_default (some u) st env name =
        GlLoader.fcBuiltinLoad st env name) := by
  refine ⟨?_, ?_, ?_⟩
  · intro u st env name p hp
    simp [GlLoader.fc_load_symbol_default, hp]
  · intro st env name
    simp [GlLoader.fc_load_symbol_default]
  · intro u st env name hn
    simp [GlLoader.fc_load_symbol_default, hn]

theorem c2_loader_user_precedence_witness :
    wUserLoader "glCreateShader" = some 7 ∧
    GlLoader.fc_load_symbol_default (some wUserLoader) none wLoaderEnv
      "glCreateShader" = (some 7, none) :=
  ⟨rfl, c2_loader_user_precedence.1 wUserLoader none wLoaderEnv
    "glCreateShader" 7 rfl⟩

/-- Claim C7: every public operation of the software-rasterizer core is
deterministic: two runs starting from equal global state with equal
arguments (including the allocation oracle) produce equal states and return
values.  In this embedding every operation is a pure state transformer, so
determinism is function application. -/
theorem c7_sw_deterministic :
    ∀ (op : SwRaster.SwOp) (s1 s2 : SwRaster.fc_ctx), s1 = s2 →
      SwRaster.swStep op s1 = SwRaster.swStep op s2 := by
  intro op s1 s2 h
  rw [h]

theorem c7_sw_deterministic_witness :
    SwRaster.g_fc_zero = SwRaster.g_fc_zero ∧
    SwRaster.swStep .shutdown SwRaster.g_fc_zero =
      SwRaster.swStep .shutdown SwRaster.g_fc_zero :=
  ⟨rfl, c7_sw_deterministic .shutdown SwRaster.g_fc_zero SwRaster.g_fc_zero rfl⟩

/-- Claim C9: `fossil_cube_get_caps` returns a non-NULL pointer exactly when
the library is initialized: NULL before any init and after shutdown, NULL
after an init that returned an error, non-NULL exactly after an init that
returned `FOSSIL_CUBE_OK`. -/
theorem c9_get_caps_iff_initialized :
    GlLoader.fossil_cube_get_caps GlLoader.zeroState = none ∧
    (∀ (cfg : Option GlLoader.fossil_cube_config) (env : GlLoader.GlEnv),
      (GlLoader.fossil_cube_init cfg env).1 = .ok ↔
        GlLoader.fossil_cube_get_caps (GlLoader.fossil_cube_init cfg env).2 ≠ none) ∧
    (∀ g, GlLoader.fossil_cube_get_caps (GlLoader.fossil_cube_shutdown g) = none) := by
  refine ⟨rfl, ?_, fun g => rfl⟩
  intro cfg env
  simp only [GlLoader.fossil_cube_init, GlLoader.fossil_cube_get_caps]
  split_ifs <;> simp_all [GlLoader.zeroState]

theorem SwRaster.clipInv_fields {s t : SwRaster.fc_ctx} (hc : t.clip = s.clip)
    (hw : t.w = s.w) (hh : t.h = s.h) (h : SwRaster.ClipInv s) :
    SwRaster.ClipInv t := by
  intro he
  rw [hc, hw, hh]
  exact h (hc ▸ he)

theorem SwRaster.clipInv_of_disabled {t : SwRaster.fc_ctx}
    (hd : t.clip.enabled = false) : SwRaster.ClipInv t := by
  intro he
  rw [hd] at he
  exact absurd he (by simp)

theorem SwRaster.put_px_nocheck_fields (s : SwRaster.fc_ctx) (x y : Int)
    (r g b a : Nat) :
    (SwRaster.put_px_nocheck s x y r g b a).clip = s.clip ∧
    (SwRaster.put_px_nocheck s x y r g b a).w = s.w ∧
    (SwRaster.put_px_nocheck s x y r g b a).h = s.h := by
  unfold SwRaster.put_px_nocheck
  split_ifs <;> exact ⟨rfl, rfl, rfl⟩

theorem SwRaster.clipInv_put_px_nocheck {s : SwRaster.fc_ctx} (x y : Int)
    (r g b a : Nat) (h : SwRaster.ClipInv s) :
    SwRaster.ClipInv (SwRaster.put_px_nocheck s x y r g b a) := by
  obtain ⟨hc, hw, hh⟩ := SwRaster.put_px_nocheck_fields s x y r g b a
  exact SwRaster.clipInv_fields hc hw hh h

theorem SwRaster.clipInv_put_pixel {s : SwRaster.fc_ctx} (x y : Int)
    (r g b a : Nat) (h : SwRaster.ClipInv s) :
    SwRaster.ClipInv (SwRaster.fossil_cube_put_pixel s x y r g b a) := by
  unfold SwRaster.fossil_cube_put_pixel
  split_ifs <;>
    first
      | exact h
      | exact SwRaster.clipInv_put_px_nocheck x y r g b a h

theorem SwRaster.clipInv_set_clip (s : SwRaster.fc_ctx) (x y w h : Int)
    (hs : SwRaster.ClipInv s) :
    SwRaster.ClipInv (SwRaster.fossil_cube_set_clip s x y w h) := by
  intro he
  by_cases h1 : s.initialized
  · by_cases h2 : w ≤ 0 ∨ h ≤ 0
    · simp [SwRaster.fossil_cube_set_clip, h1, h2] at he
    · simp only [SwRaster.fossil_cube_set_clip, h1, h2, not_true_eq_false,
        if_false, if_true, ite_false, ite_true] at he ⊢
      split_ifs at he ⊢ <;>
        (simp only [Bool.and_eq_true, decide_eq_true_eq] at he
         refine ⟨?_, ?_, ?_, ?_, ?_, ?_⟩ <;> omega)
  · simp only [SwRaster.fossil_cube_set_clip, h1] at he ⊢
    simp only [Bool.not_eq_true, not_false_eq_true, if_true] at he ⊢
    exact hs he

theorem SwRaster.clipInv_drawLineLoop (fuel : Nat) :
    ∀ (s : SwRaster.fc_ctx) (x0 y0 x1 y1 dx dy sx sy err : Int) (r g b a : Nat),
      SwRaster.ClipInv s →
      SwRaster.ClipInv
        (SwRaster.drawLineLoop fuel s x0 y0 x1 y1 dx dy sx sy err r g b a) := by
  induction fuel with
  | zero => intro s _ _ _ _ _ _ _ _ _ _ _ _ _ h; exact h
  | succ fuel ih =>
    intro s x0 y0 x1 y1 dx dy sx sy err r g b a h
    unfold SwRaster.drawLineLoop
    dsimp only
    have h1 := SwRaster.clipInv_put_pixel x0 y0 r g b a h
    split_ifs <;>
      first
        | exact h1
        | exact ih _ _ _ _ _ _ _ _ _ _ _ _ _ _ h1

theorem SwRaster.clipInv_step (op : SwRaster.SwOp) (s : SwRaster.fc_ctx)
    (h : SwRaster.ClipInv s) : SwRaster.ClipInv (SwRaster.swStep op s).1 := by
  cases op with
  | init w0 h0 p m =>
    show SwRaster.ClipInv (SwRaster.fossil_cube_init s w0 h0 p m).2
    unfold SwRaster.fossil_cube_init
    split_ifs <;>
      first
        | exact h
        | exact SwRaster.clipInv_of_disabled rfl
  | shutdown =>
    show SwRaster.ClipInv (SwRaster.fossil_cube_shutdown s)
    unfold SwRaster.fossil_cube_shutdown
    split_ifs <;>
      first
        | exact h
        | exact SwRaster.clipInv_of_disabled rfl
  | resize w0 h0 m =>
    show SwRaster.ClipInv (SwRaster.fossil_cube_resize s w0 h0 m).2
    unfold SwRaster.fossil_cube_resize
    split_ifs <;>
      first
        | exact h
        | exact SwRaster.clipInv_of_disabled rfl
  | beginFrame r g b a =>
    show SwRaster.ClipInv (SwRaster.fossil_cube_begin_frame s r g b a)
    unfold SwRaster.fossil_cube_begin_frame SwRaster.fossil_cube_clear
    split_ifs <;>
      first
        | exact h
        | exact SwRaster.clipInv_fields rfl rfl rfl h
  | endFrame => exact h
  | clear r g b a =>
    show SwRaster.ClipInv (SwRaster.fossil_cube_clear s r g b a)
    unfold SwRaster.fossil_cube_clear
    split_ifs <;>
      first
        | exact h
        | exact SwRaster.clipInv_fields rfl rfl rfl h
  | setClip x y w0 h0 => exact SwRaster.clipInv_set_clip s x y w0 h0 h
  | putPixel x y r g b a => exact SwRaster.clipInv_put_pixel x y r g b a h
  | fillRect x y w0 h0 r g b a =>
    show SwRaster.ClipInv (SwRaster.fossil_cube_fill_rect s x y w0 h0 r g b a)
    unfold SwRaster.fossil_cube_fill_rect
    by_cases h1 : ¬s.initialized = true
    · rw [if_pos h1]; exact h
    · rw [if_neg h1]
      by_cases h2 : w0 ≤ 0 ∨ h0 ≤ 0
      · rw [if_pos h2]; exact h
      · rw [if_neg h2]
        dsimp only
        refine foldl_preserve SwRaster.ClipInv _ ?_ _ _ h
        intro b1 a1 hb1
        refine foldl_preserve SwRaster.ClipInv _ ?_ _ _ hb1
        intro b2 a2 hb2
        split_ifs <;>
          first
            | exact hb2
            | exact SwRaster.clipInv_put_px_nocheck _ _ _ _ _ _ hb2
  | drawLine x0 y0 x1 y1 r g b a =>
    show SwRaster.ClipInv (SwRaster.fossil_cube_draw_line s x0 y0 x1 y1 r g b a)
    unfold SwRaster.fossil_cube_draw_line
    split_ifs <;>
      first
        | exact h
        | exact SwRaster.clipInv_drawLineLoop _ _ _ _ _ _ _ _ _ _ _ _ _ _ _ h
  | blitRgba dx dy src sw sh sp =>
    show SwRaster.ClipInv (SwRaster.fossil_cube_blit_rgba s dx dy src sw sh sp)
    unfold SwRaster.fossil_cube_blit_rgba
    by_cases h1 : ¬s.initialized = true ∨ sw ≤ 0 ∨ sh ≤ 0
    · rw [if_pos h1]; exact h
    · rw [if_neg h1]
      dsimp only
      by_cases h2 :
        ((if dx < 0 then 0 else dx) ≥ (if dx + sw > s.w then s.w else dx + sw) ∨
         (if dy < 0 then 0 else dy) ≥ (if dy + sh > s.h then s.h else dy + sh))
      · rw [if_pos h2]; exact h
      · rw [if_neg h2]
        refine foldl_preserve SwRaster.ClipInv _ ?_ _ _ h
        intro b1 a1 hb1
        refine foldl_preserve SwRaster.ClipInv _ ?_ _ _ hb1
        intro b2 a2 hb2
        split_ifs <;>
          first
            | exact hb2
            | exact SwRaster.clipInv_fields rfl rfl rfl hb2

theorem SwRaster.in_clip_valid {s : SwRaster.fc_ctx} {x y : Int}
    (h : SwRaster.ClipInv s) (he : s.clip.enabled = true)
    (hin : SwRaster.in_clip s x y = true) :
    0 ≤ x ∧ x < s.w ∧ 0 ≤ y ∧ y < s.h := by
  unfold SwRaster.in_clip at hin
  rw [he] at hin
  simp at hin
  obtain ⟨c1, c2, c3, c4, c5, c6⟩ := h he
  omega

/-- Claim C8: the clip rectangle is an invariant kept by every operation:
after any sequence of init, resize, set_clip and drawing calls on the
initially zeroed state, whenever clipping is enabled the clip rectangle is
non-empty and lies entirely within the framebuffer, so every coordinate
accepted by `in_clip` is a valid framebuffer coordinate. -/
theorem c8_clip_invariant :
    ∀ (ops : List SwRaster.SwOp),
      SwRaster.ClipInv (SwRaster.swRun ops SwRaster.g_fc_zero) ∧
      (∀ x y : Int,
        (SwRaster.swRun ops SwRaster.g_fc_zero).clip.enabled = true →
        SwRaster.in_clip (SwRaster.swRun ops SwRaster.g_fc_zero) x y = true →
        0 ≤ x ∧ x < (SwRaster.swRun ops SwRaster.g_fc_zero).w ∧
        0 ≤ y ∧ y < (SwRaster.swRun ops SwRaster.g_fc_zero).h) := by
  intro ops
  have hinv : SwRaster.ClipInv (SwRaster.swRun ops SwRaster.g_fc_zero) := by
    refine foldl_preserve SwRaster.ClipInv _ ?_ _ _ ?_
    · intro b a hb
      exact SwRaster.clipInv_step a b hb
    · exact SwRaster.clipInv_of_disabled rfl
  exact ⟨hinv, fun x y he hin => SwRaster.in_clip_valid hinv he hin⟩

theorem Revisions.isOkWin_true (a : Unit) (e : Bool) :
    Revisions.isOkWin a e = true := by
  cases e <;> rfl

theorem Revisions.isOkSw_badargs (env : SwRaster.fc_ctx × Bool) :
    Revisions.isOkSw (0, 0, none) env = false := by
  simp [Revisions.isOkSw, SwRaster.fossil_cube_init]

theorem Revisions.isOkGl_succ (cfg : GlLoader.fossil_cube_config) :
    Revisions.isOkGl cfg (Revisions.glSuccEnv cfg) = true := by
  simp only [Revisions.isOkGl, GlLoader.fossil_cube_init, Revisions.glSuccEnv,
    GlLoader.fc_query_caps]
  simp [lt_irrefl]

theorem Revisions.isOkGl_fail (cfg : GlLoader.fossil_cube_config) :
    Revisions.isOkGl cfg Revisions.glFailEnv = false := by
  simp [Revisions.isOkGl, GlLoader.fossil_cube_init, Revisions.glFailEnv]

/-- Claim C6: the three `fossil_cube_init` revisions (GL-loader, software
rasterizer, windowing) are pairwise non-equivalent: no success-preserving
simulation — a relation on arguments and on environments, total in both
directions, under which related calls agree on whether they succeed — exists
between any two of them.  The windowing init never fails, the
software-rasterizer init fails on bad arguments in every environment, and
the GL-loader init both fails in some environment and succeeds in some
environment for every config. -/
theorem c6_init_revisions_inequivalent :
    ¬ Revisions.OpSim Revisions.isOkWin Revisions.isOkSw ∧
    ¬ Revisions.OpSim Revisions.isOkWin Revisions.isOkGl ∧
    ¬ Revisions.OpSim Revisions.isOkSw Revisions.isOkGl := by
  refine ⟨?_, ?_, ?_⟩
  · rintro ⟨Ri, Re, ti1, ti2, te1, te2, okm⟩
    obtain ⟨a, ha⟩ := ti2 (0, 0, none)
    obtain ⟨x, hx⟩ := te1 true
    have := okm a (0, 0, none) true x ha hx
    rw [Revisions.isOkWin_true, Revisions.isOkSw_badargs] at this
    exact absurd this (by simp)
  · rintro ⟨Ri, Re, ti1, ti2, te1, te2, okm⟩
    obtain ⟨cfg, hcfg⟩ := ti1 ()
    obtain ⟨e, he⟩ := te2 Revisions.glFailEnv
    have := okm () cfg e Revisions.glFailEnv hcfg he
    rw [Revisions.isOkWin_true, Revisions.isOkGl_fail] at this
    exact absurd this (by simp)
  · rintro ⟨Ri, Re, ti1, ti2, te1, te2, okm⟩
    obtain ⟨cfg, hcfg⟩ := ti1 (0, 0, none)
    obtain ⟨e, he⟩ := te2 (Revisions.glSuccEnv cfg)
    have := okm (0, 0, none) cfg e (Revisions.glSuccEnv cfg) hcfg he
    rw [Revisions.isOkSw_badargs, Revisions.isOkGl_succ] at this
    exact absurd this (by simp)

theorem Gui.ensure_vtx_hot (c : Gui.Ctx) (a b : Nat) :
    (Gui.ensure_vtx c a b).hot_id = c.hot_id := by
  unfold Gui.ensure_vtx
  dsimp only
  split_ifs <;> rfl

theorem Gui.push_quad_hot (c : Gui.Ctx) (x0 y0 x1 y1 u0 v0 u1 v1 : ℚ)
    (col : Gui.fossil_cube_color) :
    (Gui.push_quad c x0 y0 x1 y1 u0 v0 u1 v1 col).hot_id = c.hot_id := by
  unfold Gui.push_quad
  exact Gui.ensure_vtx_hot c 4 6

theorem Gui.draw_rect_hot (c : Gui.Ctx) (r : Gui.fossil_cube_rect)
    (col : Gui.fossil_cube_color) :
    (Gui.fossil_cube_draw_rect c r col).hot_id = c.hot_id :=
  Gui.push_quad_hot c _ _ _ _ _ _ _ _ col

theorem Gui.draw_rect_line_hot (c : Gui.Ctx) (r : Gui.fossil_cube_rect) (t : ℚ)
    (col : Gui.fossil_cube_color) :
    (Gui.fossil_cube_draw_rect_line c r t col).hot_id = c.hot_id := by
  unfold Gui.fossil_cube_draw_rect_line
  simp only [Gui.draw_rect_hot]

theorem Gui.draw_glyph_hot (c : Gui.Ctx) (x y : ℚ) (ch : Char)
    (col : Gui.fossil_cube_color) :
    (Gui.draw_glyph c x y ch col).hot_id = c.hot_id := by
  unfold Gui.draw_glyph
  dsimp only
  refine foldl_preserve (fun cx : Gui.Ctx => cx.hot_id = c.hot_id) _ ?_ _ _ rfl
  intro b a hb
  refine foldl_preserve (fun cx : Gui.Ctx => cx.hot_id = c.hot_id) _ ?_ _ _ hb
  intro b2 a2 hb2
  split_ifs <;>
    first
      | exact hb2
      | (rw [Gui.push_quad_hot]; exact hb2)

theorem Gui.draw_text_hot (c : Gui.Ctx) (x y : ℚ) (text : Option String)
    (col : Gui.fossil_cube_color) :
    (Gui.fossil_cube_draw_text c x y text col).hot_id = c.hot_id := by
  unfold Gui.fossil_cube_draw_text
  cases text with
  | none => rfl
  | some t =>
    dsimp only
    have hz := foldl_preserve (fun acc : Gui.Ctx × ℚ × ℚ => acc.1.hot_id = c.hot_id)
      (fun acc ch =>
        if ch = '\n' then (acc.1, acc.2.1 + acc.1.glyph_h, 0)
        else if ch = ' ' then
          (acc.1, acc.2.1, acc.2.2 + 4 * (acc.1.style.font_px / 8))
        else
          (Gui.draw_glyph acc.1 (x + acc.2.2) acc.2.1 ch col, acc.2.1,
           acc.2.2 + 6 * (acc.1.style.font_px / 8)))
      ?_ t.toList (c, y, 0) rfl
    · exact hz
    · intro b a hb
      obtain ⟨c1, y1, cur⟩ := b
      dsimp only at hb ⊢
      split_ifs
      · exact hb
      · exact hb
      · rw [Gui.draw_glyph_hot]; exact hb

theorem Gui.button_draw_hot (c : Gui.Ctx) (r : Gui.fossil_cube_rect)
    (bc : Gui.fossil_cube_color) (label : Option String) (h : ℚ) :
    (Gui.button_draw c r bc label h).hot_id = c.hot_id := by
  unfold Gui.button_draw Gui.advance_cursor
  simp only [Gui.draw_text_hot, Gui.draw_rect_line_hot, Gui.draw_rect_hot]

/-- Claim C5: the immediate-mode hit test is inclusive on all four edges —
`mouse_in_rect` holds exactly when `r.x ≤ x ≤ r.x + r.w` and
`r.y ≤ y ≤ r.y + r.h` — and a hovered widget's id becomes the context's hot
id for the frame (shown for `fossil_cube_button`). -/
theorem c5_hit_test :
    (∀ (input : Gui.fossil_cube_input) (r : Gui.fossil_cube_rect),
      Gui.mouse_in_rect input r = true ↔
        (input.mousePosX ≥ r.x ∧ input.mousePosX ≤ r.x + r.w ∧
         input.mousePosY ≥ r.y ∧ input.mousePosY ≤ r.y + r.h)) ∧
    (∀ (c : Gui.Ctx) (label : Option String),
      c.panel.active = true →
      Gui.mouse_in_rect c.input (Gui.buttonRect c label) = true →
      (Gui.fossil_cube_button c label).2.hot_id = Gui.buttonWidgetId c label) := by
  constructor
  · intro input r
    unfold Gui.mouse_in_rect
    simp [and_assoc]
  · intro c label hact hhov
    unfold Gui.buttonRect at hhov
    unfold Gui.fossil_cube_button
    rw [if_neg (by simp [hact])]
    dsimp only [Gui.next_widget_id]
    simp only [hhov, if_true]
    simp only [Gui.button_draw_hot, Gui.buttonWidgetId]
    split_ifs <;> rfl

theorem c5_hit_test_witness :
    wButtonCtx.panel.active = true ∧
    Gui.mouse_in_rect wButtonCtx.input (Gui.buttonRect wButtonCtx (some "b")) = true ∧
    (Gui.fossil_cube_button wButtonCtx (some "b")).2.hot_id =
      Gui.buttonWidgetId wButtonCtx (some "b") :=
  ⟨rfl,
   by
    simp [Gui.mouse_in_rect, Gui.buttonRect, wButtonCtx,
      Gui.fossil_cube_create_context, Gui.set_default_style, Gui.zeroInput,
      Gui.fossil_cube_rect_xywh, Gui.fossil_cube_text_width]
    norm_num,
   c5_hit_test.2 wButtonCtx (some "b") rfl
    (by
      simp [Gui.mouse_in_rect, Gui.buttonRect, wButtonCtx,
        Gui.fossil_cube_create_context, Gui.set_default_style, Gui.zeroInput,
        Gui.fossil_cube_rect_xywh, Gui.fossil_cube_text_width]
      norm_num)⟩

/-- Claim C3: `fossil_cube_button` returns 1 exactly on a frame in which the
button's widget id is the active id from a previous click on it, the left
mouse button is no longer down, and the mouse is inside the button's
rectangle; in every other case (including when no panel is active) it
returns 0.  The hypothesis `mouseClicked0 → mouseDown0` says the clicked
flag is an edge of the down flag (as `fossil_cube_new_frame` synthesizes
it), which is what makes the active id come from a previous frame's click. -/
theorem c3_button_pressed :
    ∀ (c : Gui.Ctx) (label : Option String),
      ((Gui.fossil_cube_button c label).1 = 0 ∨
       (Gui.fossil_cube_button c label).1 = 1) ∧
      ((c.input.mouseClicked0 = true → c.input.mouseDown0 = true) →
        ((Gui.fossil_cube_button c label).1 = 1 ↔
          (c.panel.active = true ∧
           c.active_id = Gui.buttonWidgetId c label ∧
           c.input.mouseDown0 = false ∧
           Gui.mouse_in_rect c.input (Gui.buttonRect c label) = true))) := by
  intro c label
  constructor
  · unfold Gui.fossil_cube_button
    by_cases hact : c.panel.active = true
    · rw [if_neg (by simp [hact])]
      dsimp only
      split_ifs <;> simp
    · rw [if_pos (by simp [hact])]
      simp
  · intro himp
    by_cases hact : c.panel.active = true
    · unfold Gui.fossil_cube_button Gui.buttonRect Gui.buttonWidgetId
      rw [if_neg (by simp [hact])]
      dsimp only [Gui.next_widget_id]
      by_cases hv : Gui.mouse_in_rect c.input
          (Gui.fossil_cube_rect_xywh c.panel.cursor_x c.panel.cursor_y
            (Gui.fossil_cube_text_width c (some (label.getD "")) +
              c.style.padding * 2)
            (c.glyph_h + c.style.padding * (1 / 2))) = true
      · rw [hv]
        by_cases hdown : c.input.mouseDown0 = true
        · by_cases hcl : c.input.mouseClicked0 = true <;>
            simp [hact, hdown, hv, hcl]
        · rw [Bool.not_eq_true] at hdown
          have hclf : c.input.mouseClicked0 = false := by
            cases hcl : c.input.mouseClicked0
            · rfl
            · rw [himp hcl] at hdown
              exact absurd hdown (by simp)
          by_cases hid : c.active_id =
              Gui.hash_str (Gui.strBytes (label.getD "button"))
                (c.panel.id_seed + 1)
          · simp [hact, hdown, hclf, hid, hv]
          · simp [hact, hdown, hclf, hid, hv]
      · rw [Bool.not_eq_true] at hv
        rw [hv]
        by_cases hdown : c.input.mouseDown0 = true
        · by_cases hcl : c.input.mouseClicked0 = true <;>
            simp [hact, hdown, hv, hcl]
        · rw [Bool.not_eq_true] at hdown
          have hclf : c.input.mouseClicked0 = false := by
            cases hcl : c.input.mouseClicked0
            · rfl
            · rw [himp hcl] at hdown
              exact absurd hdown (by simp)
          by_cases hid : c.active_id =
              Gui.hash_str (Gui.strBytes (label.getD "button"))
                (c.panel.id_seed + 1)
          · simp [hact, hdown, hclf, hid, hv]
          · simp [hact, hdown, hclf, hid, hv]
    · simp [Gui.fossil_cube_button, hact]

theorem c3_button_pressed_witness :
    (wButtonCtx.input.mouseClicked0 = true → wButtonCtx.input.mouseDown0 = true) ∧
    (Gui.fossil_cube_button wButtonCtx (some "b")).1 = 1 :=
  ⟨fun h => absurd h (by simp [wButtonCtx, Gui.zeroInput]),
   ((c3_button_pressed wButtonCtx (some "b")).2
      (fun h => absurd h (by simp [wButtonCtx, Gui.zeroInput]))).mpr
    ⟨rfl, rfl, rfl,
     by
      simp [Gui.mouse_in_rect, Gui.buttonRect, wButtonCtx,
        Gui.fossil_cube_create_context, Gui.set_default_style, Gui.zeroInput,
        Gui.fossil_cube_rect_xywh, Gui.fossil_cube_text_width]
      norm_num⟩⟩

theorem Gui.sliderComputeNv_mem (rx rw bar_h mx min_v max_v step : ℚ)
    (h : min_v < max_v) :
    min_v ≤ Gui.sliderComputeNv rx rw bar_h mx min_v max_v step ∧
    Gui.sliderComputeNv rx rw bar_h mx min_v max_v step ≤ max_v := by
  unfold Gui.sliderComputeNv
  dsimp only
  split_ifs with hs
  · exact Gui.clampf_mem _ _ _ (le_of_lt h)
  · obtain ⟨h0, h1⟩ := Gui.clampf_mem ((mx - rx) / (rw - bar_h)) 0 1 (by norm_num)
    constructor
    · nlinarith
    · nlinarith

set_option maxHeartbeats 1600000

/-- Claim C4: for every slider with `min_v < max_v`, whenever
`fossil_cube_slider` returns 1 (value changed) the updated value lies in the
closed interval `[min_v, max_v]`, both for `step ≤ 0` (clamped
interpolation) and for `step > 0` (round to nearest step, then clamp). -/
theorem c4_slider_in_range :
    ∀ (c : Gui.Ctx) (label : Option String) (value min_v max_v step : ℚ),
      min_v < max_v →
      (Gui.fossil_cube_slider c label value min_v max_v step).1 = 1 →
      min_v ≤ (Gui.fossil_cube_slider c label value min_v max_v step).2.1 ∧
      (Gui.fossil_cube_slider c label value min_v max_v step).2.1 ≤ max_v := by
  intro c label value min_v max_v step hlt
  unfold Gui.fossil_cube_slider
  by_cases hact : c.panel.active = true
  · rw [if_neg (by simp [hact])]
    dsimp only
    intro hch
    split_ifs at hch ⊢ <;>
      first
        | (simp at hch; done)
        | (dsimp only; exact Gui.sliderComputeNv_mem _ _ _ _ _ _ _ hlt)
  · rw [if_pos (by simp [hact])]
    intro hch
    simp at hch

set_option maxHeartbeats 200000

theorem c4_slider_in_range_witness :
    (0 : ℚ) < 1 ∧
    (0 : ℚ) ≤ (Gui.fossil_cube_slider wSliderCtx (some "s") 0 0 1 0).2.1 ∧
    (Gui.fossil_cube_slider wSliderCtx (some "s") 0 0 1 0).2.1 ≤ 1 :=
  ⟨by norm_num,
   c4_slider_in_range wSliderCtx (some "s") 0 0 1 0 (by norm_num)
    (by
      norm_num [Gui.fossil_cube_slider, Gui.next_widget_id, Gui.mouse_in_rect,
        Gui.fossil_cube_rect_xywh, wSliderCtx, Gui.fossil_cube_create_context,
        Gui.set_default_style, Gui.zeroInput, Gui.clampf, Gui.sliderComputeNv])⟩

theorem Gui.growLoop_ge1 (nc needed : Nat) (h1 : 1 ≤ nc) :
    needed ≤ Gui.growLoop nc needed :=
  Gui.growLoop_ge needed needed nc (by omega) h1

theorem Gui.ensure_vtx_spec (c : Gui.Ctx) (a b : Nat) :
    (Gui.ensure_vtx c a b).vtx = c.vtx ∧
    (Gui.ensure_vtx c a b).idx = c.idx ∧
    c.vtx.length + a ≤ (Gui.ensure_vtx c a b).vtx_cap ∧
    c.idx.length + b ≤ (Gui.ensure_vtx c a b).idx_cap := by
  unfold Gui.ensure_vtx
  dsimp only
  split_ifs <;>
    ((try dsimp only at *)
     refine ⟨rfl, rfl, ?_, ?_⟩ <;>
       first
         | omega
         | exact Gui.growLoop_ge1 _ _ (by omega))

theorem Gui.push_quad_spec (c : Gui.Ctx) (x0 y0 x1 y1 u0 v0 u1 v1 : ℚ)
    (col : Gui.fossil_cube_color) :
    (Gui.push_quad c x0 y0 x1 y1 u0 v0 u1 v1 col).vtx.length =
      c.vtx.length + 4 ∧
    (Gui.push_quad c x0 y0 x1 y1 u0 v0 u1 v1 col).idx =
      c.idx ++ [c.vtx.length, c.vtx.length + 1, c.vtx.length + 2,
        c.vtx.length, c.vtx.length + 2, c.vtx.length + 3] := by
  obtain ⟨hv, hi, hcv, hci⟩ := Gui.ensure_vtx_spec c 4 6
  unfold Gui.push_quad
  dsimp only
  rw [hv, hi]
  simp

theorem Gui.batchInv_push_quad (c : Gui.Ctx) (x0 y0 x1 y1 u0 v0 u1 v1 : ℚ)
    (col : Gui.fossil_cube_color) (h : Gui.BatchInv c) :
    Gui.BatchInv (Gui.push_quad c x0 y0 x1 y1 u0 v0 u1 v1 col) := by
  obtain ⟨h1, h2, h3, h4, h5⟩ := h
  obtain ⟨hv, hi, hcv, hci⟩ := Gui.ensure_vtx_spec c 4 6
  have hq := Gui.push_quad_spec c x0 y0 x1 y1 u0 v0 u1 v1 col
  have hcap1 : (Gui.push_quad c x0 y0 x1 y1 u0 v0 u1 v1 col).vtx_cap =
      (Gui.ensure_vtx c 4 6).vtx_cap := rfl
  have hcap2 : (Gui.push_quad c x0 y0 x1 y1 u0 v0 u1 v1 col).idx_cap =
      (Gui.ensure_vtx c 4 6).idx_cap := rfl
  refine ⟨?_, ?_, ?_, ?_, ?_⟩
  · rw [hq.1, hcap1]
    omega
  · rw [hq.2, hcap2, List.length_append]
    simp only [List.length_cons, List.length_nil]
    omega
  · rw [hq.2, List.length_append]
    simp only [List.length_cons, List.length_nil]
    omega
  · intro i hmem
    rw [hq.2] at hmem
    rw [hq.1]
    rcases List.mem_append.mp hmem with hm | hm
    · have := h4 i hm
      omega
    · simp only [List.mem_cons, List.mem_singleton, List.not_mem_nil,
        or_false] at hm
      rcases hm with h | h | h | h | h | h <;> omega
  · rw [hq.1, hq.2, List.length_append]
    simp only [List.length_cons, List.length_nil]
    omega

theorem Gui.batchInv_draw_rect (c : Gui.Ctx) (r : Gui.fossil_cube_rect)
    (col : Gui.fossil_cube_color) (h : Gui.BatchInv c) :
    Gui.BatchInv (Gui.fossil_cube_draw_rect c r col) :=
  Gui.batchInv_push_quad c _ _ _ _ _ _ _ _ col h

theorem Gui.batchInv_draw_rect_line (c : Gui.Ctx) (r : Gui.fossil_cube_rect)
    (t : ℚ) (col : Gui.fossil_cube_color) (h : Gui.BatchInv c) :
    Gui.BatchInv (Gui.fossil_cube_draw_rect_line c r t col) := by
  unfold Gui.fossil_cube_draw_rect_line
  exact Gui.batchInv_draw_rect _ _ _
    (Gui.batchInv_draw_rect _ _ _
      (Gui.batchInv_draw_rect _ _ _ (Gui.batchInv_draw_rect _ _ _ h)))

theorem Gui.batchInv_draw_glyph (c : Gui.Ctx) (x y : ℚ) (ch : Char)
    (col : Gui.fossil_cube_color) (h : Gui.BatchInv c) :
    Gui.BatchInv (Gui.draw_glyph c x y ch col) := by
  unfold Gui.draw_glyph
  dsimp only
  refine foldl_preserve Gui.BatchInv _ ?_ _ _ h
  intro b a hb
  refine foldl_preserve Gui.BatchInv _ ?_ _ _ hb
  intro b2 a2 hb2
  split_ifs <;>
    first
      | exact hb2
      | exact Gui.batchInv_push_quad _ _ _ _ _ _ _ _ _ _ hb2

theorem Gui.batchInv_draw_text (c : Gui.Ctx) (x y : ℚ) (text : Option String)
    (col : Gui.fossil_cube_color) (h : Gui.BatchInv c) :
    Gui.BatchInv (Gui.fossil_cube_draw_text c x y text col) := by
  unfold Gui.fossil_cube_draw_text
  cases text with
  | none => exact h
  | some t =>
    dsimp only
    refine foldl_preserve (fun acc : Gui.Ctx × ℚ × ℚ => Gui.BatchInv acc.1)
      _ ?_ t.toList (c, y, 0) h
    intro b a hb
    obtain ⟨c1, y1, cur⟩ := b
    dsimp only at hb ⊢
    split_ifs
    · exact hb
    · exact hb
    · exact Gui.batchInv_draw_glyph _ _ _ _ _ hb

theorem Gui.batchInv_button_draw (c : Gui.Ctx) (r : Gui.fossil_cube_rect)
    (bc : Gui.fossil_cube_color) (label : Option String) (h0 : ℚ)
    (h : Gui.BatchInv c) : Gui.BatchInv (Gui.button_draw c r bc label h0) := by
  unfold Gui.button_draw
  exact Gui.batchInv_draw_text _ _ _ _ _
    (Gui.batchInv_draw_rect_line _ _ _ _ (Gui.batchInv_draw_rect _ _ _ h))

theorem Gui.batchInv_slider_draw (c : Gui.Ctx) (r knob : Gui.fossil_cube_rect)
    (label : Option String) (value2 bar_h h0 : ℚ) (h : Gui.BatchInv c) :
    Gui.BatchInv (Gui.slider_draw c r knob label value2 bar_h h0) := by
  unfold Gui.slider_draw
  exact Gui.batchInv_draw_text _ _ _ _ _
    (Gui.batchInv_draw_rect_line _ _ _ _
      (Gui.batchInv_draw_rect _ _ _ (Gui.batchInv_draw_rect _ _ _ h)))

theorem Gui.batchInv_begin_window_chrome (c : Gui.Ctx) (title : Option String)
    (x y w h0 : ℚ) (h : Gui.BatchInv c) :
    Gui.BatchInv (Gui.begin_window_chrome c title x y w h0) := by
  unfold Gui.begin_window_chrome
  cases title with
  | none =>
    exact Gui.batchInv_draw_rect _ _ _
      (Gui.batchInv_draw_rect_line _ _ _ _ (Gui.batchInv_draw_rect _ _ _ h))
  | some t =>
    exact Gui.batchInv_draw_text _ _ _ _ _
      (Gui.batchInv_draw_rect _ _ _
        (Gui.batchInv_draw_rect_line _ _ _ _
          (Gui.batchInv_draw_rect _ _ _ h)))

theorem Gui.batchInv_begin_window_close (c : Gui.Ctx)
    (close_r : Gui.fossil_cube_rect) (cc : Gui.fossil_cube_color)
    (h : Gui.BatchInv c) :
    Gui.BatchInv (Gui.begin_window_close c close_r cc) := by
  unfold Gui.begin_window_close
  exact Gui.batchInv_draw_text _ _ _ _ _ (Gui.batchInv_draw_rect _ _ _ h)

theorem Gui.batchInv_reset (c : Gui.Ctx) :
    Gui.BatchInv { c with vtx := [], idx := [] } := by
  refine ⟨?_, ?_, ?_, ?_, ?_⟩ <;> simp

theorem Gui.batchInv_glpipe_draw (c : Gui.Ctx) (h : Gui.BatchInv c) :
    Gui.BatchInv (Gui.glpipe_draw c) := by
  unfold Gui.glpipe_draw
  split_ifs
  · exact h
  · exact Gui.batchInv_reset c

theorem Gui.glpipe_draw_resets (c : Gui.Ctx) (h : Gui.BatchInv c) :
    (Gui.glpipe_draw c).vtx.length = 0 ∧ (Gui.glpipe_draw c).idx.length = 0 := by
  obtain ⟨h1, h2, h3, h4, h5⟩ := h
  unfold Gui.glpipe_draw
  split_ifs with hc
  · rcases hc with hc | hc <;> constructor <;> simp_all <;> omega
  · simp

set_option maxHeartbeats 1600000

theorem Gui.batchInv_guiStep (op : Gui.GuiOp) (c : Gui.Ctx)
    (h : Gui.BatchInv c) : Gui.BatchInv (Gui.guiStep op c) := by
  cases op with
  | newFrame input dt =>
    show Gui.BatchInv (Gui.fossil_cube_new_frame c input dt)
    unfold Gui.fossil_cube_new_frame
    cases input <;>
      first
        | exact h
        | (dsimp only; split_ifs <;> exact h)
  | beginWindow title x y w h0 o =>
    show Gui.BatchInv (Gui.fossil_cube_begin_window c title x y w h0 o).2.1
    unfold Gui.fossil_cube_begin_window
    rcases o with _ | b
    · exact Gui.batchInv_begin_window_chrome _ _ _ _ _ _ h
    · cases b with
      | false => exact h
      | true =>
        exact Gui.batchInv_begin_window_close _ _ _
          (Gui.batchInv_begin_window_chrome _ _ _ _ _ _ h)
  | endWindow => exact h
  | labelOp text =>
    show Gui.BatchInv (Gui.fossil_cube_label c text)
    unfold Gui.fossil_cube_label
    split_ifs <;>
      first
        | exact h
        | exact Gui.batchInv_draw_text _ _ _ _ _ h
  | button label =>
    show Gui.BatchInv (Gui.fossil_cube_button c label).2
    unfold Gui.fossil_cube_button
    by_cases hact : ¬ c.panel.active = true
    · rw [if_pos hact]; exact h
    · rw [if_neg hact]
      refine Gui.batchInv_button_draw _ _ _ _ _ ?_
      split_ifs <;> exact h
  | slider label v mi ma st =>
    show Gui.BatchInv (Gui.fossil_cube_slider c label v mi ma st).2.2
    unfold Gui.fossil_cube_slider
    by_cases hact : ¬ c.panel.active = true
    · rw [if_pos hact]; exact h
    · rw [if_neg hact]
      refine Gui.batchInv_slider_draw _ _ _ _ _ _ _ ?_
      split_ifs <;>
        first
          | exact h
          | (dsimp only
             split_ifs <;> exact h)
  | image w h0 =>
    show Gui.BatchInv (Gui.fossil_cube_image c w h0)
    unfold Gui.fossil_cube_image
    split_ifs <;>
      first
        | exact h
        | exact Gui.batchInv_push_quad _ _ _ _ _ _ _ _ _ _ h
  | sameLine => exact h
  | spacing px => exact h
  | drawRect r col round => exact Gui.batchInv_draw_rect _ _ _ h
  | drawRectLine r t col round => exact Gui.batchInv_draw_rect_line _ _ _ _ h
  | drawText x y text col => exact Gui.batchInv_draw_text _ _ _ _ _ h
  | render => exact Gui.batchInv_glpipe_draw _ h

set_option maxHeartbeats 200000

theorem Gui.batchInv_create_context (fb_w fb_h : Int) (dpi : ℚ) :
    Gui.BatchInv (Gui.fossil_cube_create_context fb_w fb_h dpi) := by
  refine ⟨?_, ?_, ?_, ?_, ?_⟩ <;> simp [Gui.fossil_cube_create_context]

/-- Claim C10: `push_quad` appends exactly 4 vertices and 6 indices forming
two triangles over those vertices; the draw batch keeps
`vtx_count ≤ vtx_cap`, `idx_count ≤ idx_cap`, `idx_count % 6 = 0` and every
stored index below `vtx_count` across every drawing operation (from a fresh
context through any operation sequence); rendering a frame resets both
counts to 0. -/
theorem c10_draw_batch :
    (∀ (c : Gui.Ctx) (x0 y0 x1 y1 u0 v0 u1 v1 : ℚ)
        (col : Gui.fossil_cube_color),
      (Gui.push_quad c x0 y0 x1 y1 u0 v0 u1 v1 col).vtx.length =
        c.vtx.length + 4 ∧
      (Gui.push_quad c x0 y0 x1 y1 u0 v0 u1 v1 col).idx =
        c.idx ++ [c.vtx.length, c.vtx.length + 1, c.vtx.length + 2,
          c.vtx.length, c.vtx.length + 2, c.vtx.length + 3]) ∧
    (∀ (op : Gui.GuiOp) (c : Gui.Ctx),
      Gui.BatchInv c → Gui.BatchInv (Gui.guiStep op c)) ∧
    (∀ (ops : List Gui.GuiOp) (fb_w fb_h : Int) (dpi : ℚ),
      Gui.BatchInv (Gui.guiRun ops (Gui.fossil_cube_create_context fb_w fb_h dpi))) ∧
    (∀ (c : Gui.Ctx),
      Gui.BatchInv c →
      (Gui.fossil_cube_render c).vtx.length = 0 ∧
      (Gui.fossil_cube_render c).idx.length = 0) := by
  refine ⟨Gui.push_quad_spec, Gui.batchInv_guiStep, ?_, Gui.glpipe_draw_resets⟩
  intro ops fb_w fb_h dpi
  exact foldl_preserve Gui.BatchInv _ (fun b a hb => Gui.batchInv_guiStep a b hb)
    ops _ (Gui.batchInv_create_context fb_w fb_h dpi)

theorem c10_draw_batch_witness :
    (Gui.fossil_cube_render
      (Gui.fossil_cube_create_context 640 480 1)).vtx.length = 0 ∧
    (Gui.fossil_cube_render
      (Gui.fossil_cube_create_context 640 480 1)).idx.length = 0 :=
  c10_draw_batch.2.2.2 (Gui.fossil_cube_create_context 640 480 1)
    (by
      refine ⟨?_, ?_, ?_, ?_, ?_⟩ <;>
        simp [Gui.fossil_cube_create_context])

theorem c8_clip_invariant_witness :
    0 ≤ (2 : Int) ∧ 2 < (SwRaster.swRun wSwOps SwRaster.g_fc_zero).w ∧
    0 ≤ (2 : Int) ∧ 2 < (SwRaster.swRun wSwOps SwRaster.g_fc_zero).h :=
  (c8_clip_invariant wSwOps).2 2 2 (by decide) (by decide)

end FossilCube
